import Mathlib

/-!
Verification of the client-side data reconciliation and offline-fallback layer
of the academic-directory application.

The definitions below are a shallow embedding of the TypeScript/JavaScript
source:

* the data model (`Department`, `Branch`, `Professor`, `AppData`) follows the
  interfaces declared at the top of `vite.config.ts`;
* JavaScript objects used as string-keyed maps are embedded as
  insertion-ordered association lists (`List (String × α)`) with the
  primitives `lookupKey`, `setKey` (spread-with-override) and `deleteKey`
  (the `delete` operator);
* the Seed Dataset is transcribed verbatim from `seed-export.ts`;
* `loadData`, `handleAddProfessor`, `handleEditProfessor`,
  `handleRemoveProfessor`, `handleRemoveDepartment` and `handleDataUpdate`
  embed the session handlers of `vite.config.ts`, with the Remote Store
  outcome, `Date.now()` and `window.confirm` passed as explicit parameters,
  React state as an explicit `UIState` record, and `localStorage` writes as an
  explicit write log;
* the HTTP client `request` (from the `api` module) is embedded with the
  per-attempt `fetch` outcome passed as an explicit script;
* `escapeHtml` (from `alumni_search.js`) operates on an embedded JavaScript
  value type, and `normalizeUrl` abstracts the browser `URL` object as an
  explicit parse/render pair.

Possibly-thrown `TypeError`s (property access on `undefined`) are embedded as
`Except Unit`.
-/

/-- Union type `string[] | string` used by several `Professor` fields. -/
inductive StrOrList
  | one (s : String)
  | many (l : List String)
deriving DecidableEq, Repr

/-- The `ProfessorLinks` interface of `vite.config.ts` (its index-signature
extension is unused by the flows under verification). -/
structure ProfessorLinks where
  awards : String
  webpage : String
  bio : String
deriving DecidableEq, Repr

/-- The `Professor` interface of `vite.config.ts`.  `underscoreId` embeds the
optional `_id` field.  `id` is `Option String` because the mutation handlers
can store `undefined` in it (spreading a server record without `_id`).
`departmentName` is written by the handlers even though the interface does not
declare it, so it appears here as an optional field. -/
structure Professor where
  underscoreId : Option String
  id : Option String
  name : String
  email : String
  position : String
  degree : String
  branch : String
  department : Option String
  departmentId : Option String
  departmentName : Option String
  description : String
  photo : String
  links : ProfessorLinks
  research : StrOrList
  projects : StrOrList
  companies : StrOrList
  websites : Option StrOrList
  institutes : Option StrOrList
deriving DecidableEq, Repr

/-- The `Department` interface of `vite.config.ts`. -/
structure Department where
  id : String
  name : String
  branches : List String
deriving DecidableEq, Repr

/-- The `Branch` interface of `vite.config.ts`. -/
structure Branch where
  id : String
  name : String
  departmentId : Option String
deriving DecidableEq, Repr

/-- The `NewsItem` interface of `vite.config.ts`. -/
structure NewsItem where
  title : String
  date : String
  id : Option String
  link : Option String
deriving DecidableEq, Repr

/-- The `AppData` aggregate of `vite.config.ts`.  The two JavaScript objects
used as maps are embedded as insertion-ordered association lists. -/
structure AppData where
  departments : List Department
  branches : List (String × Branch)
  professors : List (String × Professor)
  news : List NewsItem
deriving DecidableEq, Repr

/-- Reading `m[k]` on a JavaScript object: first binding wins (keys are unique
in all states the source constructs, so this is the object lookup). -/
def lookupKey {α : Type} : List (String × α) → String → Option α
  | [], _ => none
  | (k', v) :: rest, k => if k' = k then some v else lookupKey rest k

/-- The source's `{ ...m, [k]: v }` object update: replaces the binding in
place when `k` is present (JavaScript keeps the original insertion position),
otherwise appends it. -/
def setKey {α : Type} : List (String × α) → String → α → List (String × α)
  | [], k, v => [(k, v)]
  | (k', v') :: rest, k, v =>
      if k' = k then (k, v) :: rest else (k', v') :: setKey rest k v

/-- The source's `delete m[k]` on a copied object. -/
def deleteKey {α : Type} : List (String × α) → String → List (String × α)
  | [], _ => []
  | (k', v') :: rest, k =>
      if k' = k then deleteKey rest k else (k', v') :: deleteKey rest k

/-- JavaScript truthiness of a possibly-`undefined` string (`undefined` and
the empty string are falsy). -/
def jsTruthy : Option String → Bool
  | none => false
  | some s => !s.isEmpty

/-- JavaScript `a || b` on possibly-`undefined` strings. -/
def jsOrStr (a b : Option String) : Option String :=
  if jsTruthy a then a else b

/-- JavaScript property-key coercion of a possibly-`undefined` string
(`m[x]` uses the string `"undefined"` when `x` is `undefined`). -/
def jsKeyStr : Option String → String
  | some s => s
  | none => "undefined"
/-- The Seed Dataset departments, transcribed from `fallbackData.departments`
in `seed-export.ts`. -/
def fallbackDepartments : List Department :=
  [{ id := "dept_ece", name := "Electronics & Electrical Communication Engineering", branches := ["branch_ece"] }]

/-- The Seed Dataset branch map, transcribed from `fallbackData.branches`. -/
def fallbackBranches : List (String × Branch) :=
  [("branch_ece", { id := "branch_ece", name := "ECE", departmentId := some "dept_ece" })]

/-- The Seed Dataset professor map, transcribed field by field from
`fallbackData.professors` in `seed-export.ts` (19 entries, keys `prof_ece_1` ..
`prof_ece_19`). -/
def fallbackProfessors : List (String × Professor) :=
  [("prof_ece_1",
   { underscoreId := none,
     id := some "prof_ece_1",
     name := "Amitabha Bhattacharya",
     email := "amitabha@ece.iitkgp.ac.in",
     position := "Professor",
     degree := "Ph.D.",
     branch := "branch_ece",
     department := none,
     departmentId := some "dept_ece",
     departmentName := none,
     description := "Engineered electromagnetic materials, radar signal processing, microwave imaging, antenna design, satellite navigation, radar target identification, electromagnetic interference, and radar absorbing materials with composite materials applications.",
     photo := "/ece/download.png",
     links := { awards := "", webpage := "https://www.iitkgp.ac.in/department/EC/faculty/ec-amitabha", bio := "" },
     research := StrOrList.many ["Engineered electromagnetic materials", "Radar signal processing", "Microwave imaging", "Antenna design", "Satellite navigation", "Radar target identification", "Electromagnetic interference", "Radar absorbing materials"],
     projects := StrOrList.many [],
     companies := StrOrList.many [],
     websites := some (StrOrList.many []),
     institutes := some (StrOrList.many []) }),
  ("prof_ece_2",
   { underscoreId := none,
     id := some "prof_ece_2",
     name := "Amitalok Jayant Budkuley",
     email := "amitalok@ece.iitkgp.ac.in",
     position := "Assistant Professor Grade-I",
     degree := "Ph.D.",
     branch := "branch_ece",
     department := none,
     departmentId := some "dept_ece",
     departmentName := none,
     description := "Fundamental limits of cryptographic primitives over unreliable Gaussian noisy channels, information theory, distributed sampling, coding theory, and secure multi-party computation.",
     photo := "/ece/download(1).png",
     links := { awards := "", webpage := "https://www.iitkgp.ac.in/department/EC/faculty/ec-amitalok", bio := "" },
     research := StrOrList.many ["Cryptographic primitives", "Gaussian noisy channels", "Information theory", "Distributed sampling", "Coding theory", "Secure multi-party computation"],
     projects := StrOrList.many [],
     companies := StrOrList.many [],
     websites := some (StrOrList.many []),
     institutes := some (StrOrList.many []) }),
  ("prof_ece_3",
   { underscoreId := none,
     id := some "prof_ece_3",
     name := "Basudev Lahiri",
     email := "blahiri@ece.iitkgp.ac.in",
     position := "Assistant Professor Grade-I",
     degree := "Ph.D.",
     branch := "branch_ece",
     department := none,
     departmentId := some "dept_ece",
     departmentName := none,
     description := "Photonic wire waveguides, 2D materials, solar cells, neuromorphic devices, bio nano photonics, photonic instrumentation and imaging, metamaterials, biophotonics, and nanofabrication for biomedical sensor design.",
     photo := "/ece/download(2).png",
     links := { awards := "", webpage := "https://www.iitkgp.ac.in/department/EC/faculty/ec-blahiri", bio := "" },
     research := StrOrList.many ["Photonic wire waveguides", "2D materials", "Solar cells", "Neuromorphic devices", "Bio nano photonics", "Photonic instrumentation", "Metamaterials", "Biophotonics", "Nanofabrication"],
     projects := StrOrList.many [],
     companies := StrOrList.many [],
     websites := some (StrOrList.many []),
     institutes := some (StrOrList.many []) }),
  ("prof_ece_4",
   { underscoreId := none,
     id := some "prof_ece_4",
     name := "Bratin Ghosh",
     email := "bghosh@ece.iitkgp.ac.in",
     position := "Professor",
     degree := "Ph.D.",
     branch := "branch_ece",
     department := none,
     departmentId := some "dept_ece",
     departmentName := none,
     description := "Full-wave analysis and design of efficient antennas, guided systems, antenna miniaturization, numerical electromagnetics, dielectric resonator antennas, and slot antenna technologies.",
     photo := "/ece/download(3).png",
     links := { awards := "", webpage := "https://www.iitkgp.ac.in/department/EC/faculty/ec-bghosh", bio := "" },
     research := StrOrList.many ["Efficient antennas", "Guided systems", "Antenna miniaturization", "Numerical electromagnetics", "Dielectric resonator antennas", "Slot antenna technologies"],
     projects := StrOrList.many [],
     companies := StrOrList.many [],
     websites := some (StrOrList.many []),
     institutes := some (StrOrList.many []) }),
  ("prof_ece_5",
   { underscoreId := none,
     id := some "prof_ece_5",
     name := "Debashis Sen",
     email := "dsen@ece.iitkgp.ac.in",
     position := "Associate Professor",
     degree := "Ph.D.",
     branch := "branch_ece",
     department := none,
     departmentId := some "dept_ece",
     departmentName := none,
     description := "Deep learning-based 3D digital restoration, hyperspectral image quality improvement, artificial visual scanpath generation for action recognition, robotic systems for hazardous manufacturing, and multi-sensor integration. Heavy focus on deep learning, image analysis, and advanced manufacturing.",
     photo := "/ece/download(4).png",
     links := { awards := "", webpage := "https://www.iitkgp.ac.in/department/EC/faculty/ec-dsen", bio := "" },
     research := StrOrList.many ["Deep learning", "3D digital restoration", "Hyperspectral imaging", "Action recognition", "Robotic systems", "Multi-sensor integration"],
     projects := StrOrList.many [],
     companies := StrOrList.many [],
     websites := some (StrOrList.many []),
     institutes := some (StrOrList.many []) }),
  ("prof_ece_6",
   { underscoreId := none,
     id := some "prof_ece_6",
     name := "Goutam Saha",
     email := "gsaha@ece.iitkgp.ac.in",
     position := "Professor",
     degree := "Ph.D.",
     branch := "branch_ece",
     department := none,
     departmentId := some "dept_ece",
     departmentName := none,
     description := "Biomedical signal processing, speech/audio signal processing, pattern recognition, biometric authentication, healthcare technologies, and related machine learning.",
     photo := "/ece/download(5).png",
     links := { awards := "", webpage := "https://www.iitkgp.ac.in/department/EC/faculty/ec-gsaha", bio := "" },
     research := StrOrList.many ["Biomedical signal processing", "Speech processing", "Audio signal processing", "Pattern recognition", "Biometric authentication", "Healthcare technologies"],
     projects := StrOrList.many [],
     companies := StrOrList.many [],
     websites := some (StrOrList.many []),
     institutes := some (StrOrList.many []) }),
  ("prof_ece_7",
   { underscoreId := none,
     id := some "prof_ece_7",
     name := "Indrajit Chakrabarti",
     email := "indrajit@ece.iitkgp.ac.in",
     position := "Professor",
     degree := "Ph.D.",
     branch := "branch_ece",
     department := none,
     departmentId := some "dept_ece",
     departmentName := none,
     description := "Hardware security in networking, low-power VLSI design, radio frequency ICs, mixed signal/RF IC design, modem design, wireless communication, VLSI architectures for image/video processing, and analog spiking neural network applications to low-power computing.",
     photo := "/ece/download(6).png",
     links := { awards := "", webpage := "https://www.iitkgp.ac.in/department/EC/faculty/ec-indrajit", bio := "" },
     research := StrOrList.many ["Hardware security", "Low-power VLSI design", "Radio frequency ICs", "Mixed signal/RF IC design", "Wireless communication", "VLSI architectures", "Spiking neural networks"],
     projects := StrOrList.many [],
     companies := StrOrList.many [],
     websites := some (StrOrList.many []),
     institutes := some (StrOrList.many []) }),
  ("prof_ece_8",
   { underscoreId := none,
     id := some "prof_ece_8",
     name := "Jithin R",
     email := "jithin@ece.iitkgp.ac.in",
     position := "Assistant Professor Grade-I",
     degree := "Ph.D.",
     branch := "branch_ece",
     department := none,
     departmentId := some "dept_ece",
     departmentName := none,
     description := "Information theory, wireless communication, privacy in coded caching and function computation, secure function computation, scaling laws for many-access channels, and network coding.",
     photo := "/ece/download(7).png",
     links := { awards := "", webpage := "https://www.iitkgp.ac.in/department/EC/faculty/ec-jithin", bio := "" },
     research := StrOrList.many ["Information theory", "Wireless communication", "Privacy in coded caching", "Secure function computation", "Scaling laws", "Network coding"],
     projects := StrOrList.many [],
     companies := StrOrList.many [],
     websites := some (StrOrList.many []),
     institutes := some (StrOrList.many []) }),
  ("prof_ece_9",
   { underscoreId := none,
     id := some "prof_ece_9",
     name := "Mrinal Kanti Mandal",
     email := "mkmandal@ece.iitkgp.ac.in",
     position := "Professor",
     degree := "Ph.D.",
     branch := "branch_ece",
     department := none,
     departmentId := some "dept_ece",
     departmentName := none,
     description := "Microwave and millimeter-wave circuits, antenna design, filters (low-pass, band-pass, stop-band), SIW power dividers, reconfigurable antennas, and planar circuit technologies.",
     photo := "/ece/download(8).png",
     links := { awards := "", webpage := "https://www.iitkgp.ac.in/department/EC/faculty/ec-mkmandal", bio := "" },
     research := StrOrList.many ["Microwave circuits", "Millimeter-wave circuits", "Antenna design", "Filters", "SIW power dividers", "Reconfigurable antennas", "Planar circuit technologies"],
     projects := StrOrList.many [],
     companies := StrOrList.many [],
     websites := some (StrOrList.many []),
     institutes := some (StrOrList.many []) }),
  ("prof_ece_10",
   { underscoreId := none,
     id := some "prof_ece_10",
     name := "Mrityunjoy Chakraborty",
     email := "mrityun@ece.iitkgp.ac.in",
     position := "Professor",
     degree := "Ph.D.",
     branch := "branch_ece",
     department := none,
     departmentId := some "dept_ece",
     departmentName := none,
     description := "Digital and adaptive signal processing, VLSI signal processing, compressive sensing, sparse system identification, cooperative adaptive estimation algorithms, radar pulse parameter estimation.",
     photo := "/ece/download(9).png",
     links := { awards := "", webpage := "https://www.iitkgp.ac.in/department/EC/faculty/ec-mrityun", bio := "" },
     research := StrOrList.many ["Digital signal processing", "Adaptive signal processing", "VLSI signal processing", "Compressive sensing", "Sparse system identification", "Radar pulse parameter estimation"],
     projects := StrOrList.many [],
     companies := StrOrList.many [],
     websites := some (StrOrList.many []),
     institutes := some (StrOrList.many []) }),
  ("prof_ece_11",
   { underscoreId := none,
     id := some "prof_ece_11",
     name := "Prasanta Kumar Guha",
     email := "pkguha@ece.iitkgp.ac.in",
     position := "Professor",
     degree := "Ph.D.",
     branch := "branch_ece",
     department := none,
     departmentId := some "dept_ece",
     departmentName := none,
     description := "Nanomaterial-based sensors/devices, flexible microdevices, energy devices, biomedical sensors, photonic sensors, VLSI design, chemiresistive gas sensors, supercapacitor nano devices, and energy storage.",
     photo := "/ece/download(10).png",
     links := { awards := "", webpage := "https://www.iitkgp.ac.in/department/EC/faculty/ec-pkguha", bio := "" },
     research := StrOrList.many ["Nanomaterial sensors", "Flexible microdevices", "Energy devices", "Biomedical sensors", "Photonic sensors", "VLSI design", "Chemiresistive gas sensors", "Supercapacitor nano devices"],
     projects := StrOrList.many [],
     companies := StrOrList.many [],
     websites := some (StrOrList.many []),
     institutes := some (StrOrList.many []) }),
  ("prof_ece_12",
   { underscoreId := none,
     id := some "prof_ece_12",
     name := "Raja Datta",
     email := "rajadatta@ece.iitkgp.ac.in",
     position := "Professor",
     degree := "Ph.D.",
     branch := "branch_ece",
     department := none,
     departmentId := some "dept_ece",
     departmentName := none,
     description := "Software-defined networks, edge computing, inter-planetary networks, elastic optical networks, vehicular ad hoc networks, mobile ad hoc network security, routing, and IoT-enabled sensor techniques.",
     photo := "/ece/download(11).png",
     links := { awards := "", webpage := "https://www.iitkgp.ac.in/department/EC/faculty/ec-rajadatta", bio := "" },
     research := StrOrList.many ["Software-defined networks", "Edge computing", "Inter-planetary networks", "Elastic optical networks", "Vehicular ad hoc networks", "Mobile ad hoc network security", "IoT-enabled sensor techniques"],
     projects := StrOrList.many [],
     companies := StrOrList.many [],
     websites := some (StrOrList.many []),
     institutes := some (StrOrList.many []) }),
  ("prof_ece_13",
   { underscoreId := none,
     id := some "prof_ece_13",
     name := "Sarang Pendharker",
     email := "sarang@ece.iitkgp.ac.in",
     position := "Assistant Professor Grade-I",
     degree := "Ph.D.",
     branch := "branch_ece",
     department := none,
     departmentId := some "dept_ece",
     departmentName := none,
     description := "Optical physics and communication engineering at the electromagnetic wave-matter interface, developing next-gen communication technologies, optically reconfigured microstrip circuits/devices, photonics, and reconfigurable microwave devices.",
     photo := "/ece/download(12).png",
     links := { awards := "", webpage := "https://www.iitkgp.ac.in/department/EC/faculty/ec-sarang", bio := "" },
     research := StrOrList.many ["Optical physics", "Communication engineering", "Electromagnetic wave-matter interface", "Optically reconfigured circuits", "Photonics", "Reconfigurable microwave devices"],
     projects := StrOrList.many [],
     companies := StrOrList.many [],
     websites := some (StrOrList.many []),
     institutes := some (StrOrList.many []) }),
  ("prof_ece_14",
   { underscoreId := none,
     id := some "prof_ece_14",
     name := "Shailendra Kumar Varshney",
     email := "skvarshney@ece.iitkgp.ac.in",
     position := "Professor",
     degree := "Ph.D.",
     branch := "branch_ece",
     department := none,
     departmentId := some "dept_ece",
     departmentName := none,
     description := "Quantum optics, micromachines, energy harvesting functional materials, integrated photonics, nanorobotics, fiber optic sensors, metamaterials, perovskite solar cells, underwater optical wireless comm., experimental photonics, 4D printing, micro manufacturing.",
     photo := "/ece/download(13).png",
     links := { awards := "", webpage := "https://www.iitkgp.ac.in/department/EC/faculty/ec-skvarshney", bio := "" },
     research := StrOrList.many ["Quantum optics", "Micromachines", "Energy harvesting materials", "Integrated photonics", "Nanorobotics", "Fiber optic sensors", "Metamaterials", "Perovskite solar cells", "4D printing"],
     projects := StrOrList.many [],
     companies := StrOrList.many [],
     websites := some (StrOrList.many []),
     institutes := some (StrOrList.many []) }),
  ("prof_ece_15",
   { underscoreId := none,
     id := some "prof_ece_15",
     name := "Sharba Bandyopadhyay",
     email := "sharba@ece.iitkgp.ac.in",
     position := "Assistant Professor Grade-I",
     degree := "Ph.D.",
     branch := "branch_ece",
     department := none,
     departmentId := some "dept_ece",
     departmentName := none,
     description := "Neurobiology, auditory neuroscience, auditory neural processing, cognitive neuroscience, neurophysiology, affective neuroscience. Focus on physiological/cognitive data analysis and neural plasticity in auditory systems.",
     photo := "/ece/download(14).png",
     links := { awards := "", webpage := "https://www.iitkgp.ac.in/department/EC/faculty/ec-sharba", bio := "" },
     research := StrOrList.many ["Neurobiology", "Auditory neuroscience", "Cognitive neuroscience", "Neurophysiology", "Affective neuroscience", "Neural plasticity"],
     projects := StrOrList.many [],
     companies := StrOrList.many [],
     websites := some (StrOrList.many []),
     institutes := some (StrOrList.many []) }),
  ("prof_ece_16",
   { underscoreId := none,
     id := some "prof_ece_16",
     name := "Subhadip Mukherjee",
     email := "smukherjee@ece.iitkgp.ac.in",
     position := "Assistant Professor Grade-I",
     degree := "Ph.D.",
     branch := "branch_ece",
     department := none,
     departmentId := some "dept_ece",
     departmentName := none,
     description := "Deep learning for inverse problems in medical imaging (CT, low-dose/sparse projections), data-driven image reconstruction, optimization and statistics for clinical applications, integration of machine learning with regularization theory, and robust algorithms for high-dimensional signal estimation.",
     photo := "/ece/download(15).png",
     links := { awards := "", webpage := "https://www.iitkgp.ac.in/department/EC/faculty/ec-smukherjee", bio := "" },
     research := StrOrList.many ["Deep learning for inverse problems", "Medical imaging", "Data-driven image reconstruction", "Optimization and statistics", "Regularization theory", "High-dimensional signal estimation"],
     projects := StrOrList.many [],
     companies := StrOrList.many [],
     websites := some (StrOrList.many []),
     institutes := some (StrOrList.many []) }),
  ("prof_ece_17",
   { underscoreId := none,
     id := some "prof_ece_17",
     name := "Sudipta Mukhopadhyay",
     email := "smukho@ece.iitkgp.ac.in",
     position := "Professor",
     degree := "Ph.D.",
     branch := "branch_ece",
     department := none,
     departmentId := some "dept_ece",
     departmentName := none,
     description := "Medical image processing, video restoration, image quality metrics, content-based image retrieval (especially for CT/lung images), autonomous tools for radiologists, feature extraction for image retrieval, video coding, and medical imaging algorithms.",
     photo := "/ece/download(16).png",
     links := { awards := "", webpage := "https://www.iitkgp.ac.in/department/EC/faculty/ec-smukho", bio := "" },
     research := StrOrList.many ["Medical image processing", "Video restoration", "Image quality metrics", "Content-based image retrieval", "Autonomous tools for radiologists", "Video coding"],
     projects := StrOrList.many [],
     companies := StrOrList.many [],
     websites := some (StrOrList.many []),
     institutes := some (StrOrList.many []) }),
  ("prof_ece_18",
   { underscoreId := none,
     id := some "prof_ece_18",
     name := "Tarun Kanti Bhattacharyya",
     email := "tkb@ece.iitkgp.ac.in",
     position := "Professor",
     degree := "Ph.D.",
     branch := "branch_ece",
     department := none,
     departmentId := some "dept_ece",
     departmentName := none,
     description := "MEMS/microsystems, RF/analog VLSI, nanoelectronics, nano-bio sensors, energy storage/harvesting, thin films, biosystem engineering, sensors/actuators for aerospace; leads multidisciplinary labs for VLSI, high-performance devices, and nano-bio applications.",
     photo := "/ece/download(17).png",
     links := { awards := "", webpage := "https://www.iitkgp.ac.in/department/EC/faculty/ec-tkb", bio := "" },
     research := StrOrList.many ["MEMS/microsystems", "RF/analog VLSI", "Nanoelectronics", "Nano-bio sensors", "Energy storage/harvesting", "Biosystem engineering", "Sensors/actuators for aerospace"],
     projects := StrOrList.many [],
     companies := StrOrList.many [],
     websites := some (StrOrList.many []),
     institutes := some (StrOrList.many []) }),
  ("prof_ece_19",
   { underscoreId := none,
     id := some "prof_ece_19",
     name := "Vivek Dixit",
     email := "vdixit@ece.iitkgp.ac.in",
     position := "Associate Professor",
     degree := "Ph.D.",
     branch := "branch_ece",
     department := none,
     departmentId := some "dept_ece",
     departmentName := none,
     description := "Semiconductor devices modeling/simulation, silicon photonics, THz technology, metamaterials, photonic devices, low-loss silicon modulators, reconfigurable microwave/photonics structures, and eye diagram simulation for electro-optic signals.",
     photo := "/ece/download(18).png",
     links := { awards := "", webpage := "https://www.iitkgp.ac.in/department/EC/faculty/ec-vdixit", bio := "" },
     research := StrOrList.many ["Semiconductor devices modeling", "Silicon photonics", "THz technology", "Metamaterials", "Photonic devices", "Low-loss silicon modulators", "Reconfigurable microwave structures"],
     projects := StrOrList.many [],
     companies := StrOrList.many [],
     websites := some (StrOrList.many []),
     institutes := some (StrOrList.many []) })]
/-- The full Seed Dataset `fallbackData` of `seed-export.ts` (its `news` list
is empty). -/
def fallbackData : AppData :=
  { departments := fallbackDepartments,
    branches := fallbackBranches,
    professors := fallbackProfessors,
    news := [] }

/-- The fixed `localStorage` key `LOCAL_STORAGE_KEY` of `vite.config.ts`. -/
def LOCAL_STORAGE_KEY : String := "career-booster-data"

/-- A dynamically-typed candidate aggregate, as produced by `JSON.parse` of a
cached blob or by the Remote Store: each expected field may be missing
(`none` embeds the JavaScript `undefined` obtained when reading an absent
property). -/
structure Blob where
  departments : Option (List Department)
  branches : Option (List (String × Branch))
  professors : Option (List (String × Professor))
  news : Option (List NewsItem)
deriving DecidableEq, Repr

/-- A structurally well-formed `AppData` viewed as a `Blob`. -/
def AppData.toBlob (d : AppData) : Blob :=
  { departments := some d.departments,
    branches := some d.branches,
    professors := some d.professors,
    news := some d.news }

/-- Outcome of the `fetchMockData()` call in `loadData`: either the promise
resolved with an object payload, or it rejected (network error; a resolved
non-object or `null` payload takes the same `catch` path and is folded into
`err`). -/
inductive RemoteFetch
  | ok (v : Blob)
  | err
deriving DecidableEq, Repr

/-- The `apiStatus` React state of `vite.config.ts`. -/
inductive ApiStatus
  | connecting
  | connected
  | offline
deriving DecidableEq, Repr

/-- The `forEach`-over-`Object.keys` merge used for professors and branches in
`loadData`: each seed binding whose key is not already present (JavaScript
falsy test on the current value) is appended; present bindings are kept. -/
def mergeMissing {α : Type} (base seed : List (String × α)) : List (String × α) :=
  List.foldl
    (fun acc kv => if (lookupKey acc kv.1).isSome then acc else acc ++ [kv])
    base seed

/-- The professor/branch merge step of `loadData` on a possibly-missing map.
When the seed map has at least one key, indexing into an `undefined` base
throws a `TypeError` (embedded as `Except.error ()`); with an empty seed map
the loop body never runs and the base is left untouched. -/
def mergeObjInto {α : Type} (base : Option (List (String × α)))
    (seed : List (String × α)) : Except Unit (Option (List (String × α))) :=
  match seed with
  | [] => Except.ok base
  | _ :: _ =>
      match base with
      | none => Except.error ()
      | some m => Except.ok (some (mergeMissing m seed))

/-- The department merge of `loadData`: the set of existing ids is computed
once, then every seed department whose id is not in that set is pushed. -/
def mergeDepartmentsInto (deps : List Department) : List Department :=
  deps ++ fallbackDepartments.filter
    (fun d => !(deps.map Department.id).contains d.id)

/-- The seed-merge block of `loadData` (`vite.config.ts`, the
`MERGE FALLBACK DATA` section): merges departments, then professors, then
branches of `fallbackData` into the chosen base; accessing a missing
`departments`, `professors` or `branches` field throws. -/
def mergeFallbackInto (b : Blob) : Except Unit Blob :=
  match b.departments with
  | none => Except.error ()
  | some deps =>
      match mergeObjInto b.professors fallbackProfessors with
      | Except.error e => Except.error e
      | Except.ok profs =>
          match mergeObjInto b.branches fallbackBranches with
          | Except.error e => Except.error e
          | Except.ok brs =>
              Except.ok
                { departments := some (mergeDepartmentsInto deps),
                  branches := brs,
                  professors := profs,
                  news := b.news }

/-- Result of `loadData`: the aggregate handed to `setData` plus the
connectivity state. -/
structure LoadOutcome where
  data : Blob
  status : ApiStatus
deriving DecidableEq, Repr

/-- The `loadData` callback of `vite.config.ts`.  `remote` is the
`fetchMockData()` outcome and `cache` the Local Cache content as seen by
`loadLocalData` (`none` embeds an absent key, an unreadable blob, or a falsy
parsed value, all of which fall through `local || fallbackData`).  The merge
block runs outside the `try`, so a malformed base makes the whole call
throw. -/
def loadData (remote : RemoteFetch) (cache : Option Blob) :
    Except Unit LoadOutcome :=
  let fromCache : Blob := match cache with
    | some b => b
    | none => fallbackData.toBlob
  let baseStatus : Blob × ApiStatus :=
    match remote with
    | RemoteFetch.ok v =>
        if v.departments.isSome then (v, ApiStatus.connected)
        else (fromCache, ApiStatus.offline)
    | RemoteFetch.err => (fromCache, ApiStatus.offline)
  match mergeFallbackInto baseStatus.1 with
  | Except.error e => Except.error e
  | Except.ok merged => Except.ok { data := merged, status := baseStatus.2 }

/-- Outcome of a single Remote Store call made by a mutation handler. -/
inductive RemoteResult (α : Type)
  | ok (val : α)
  | err
deriving DecidableEq, Repr

/-- The session state touched by the mutation handlers: the `data` React state
(`null` before the first load), the connectivity flag, the toast queue, and
the log of `localStorage.setItem` calls performed by `saveLocalData` (each
under the fixed key). -/
structure UIState where
  data : Option AppData
  apiStatus : ApiStatus
  toasts : List String
  cacheWrites : List (String × AppData)
deriving DecidableEq, Repr

/-- `showToast` of the toast provider: enqueues a message. -/
def showToast (st : UIState) (msg : String) : UIState :=
  { st with toasts := st.toasts ++ [msg] }

/-- `saveLocalData` of `vite.config.ts`: one `localStorage.setItem` under
`LOCAL_STORAGE_KEY` (the storage itself is taken as available; the source
silently ignores write errors). -/
def saveLocalData (st : UIState) (d : AppData) : UIState :=
  { st with cacheWrites := st.cacheWrites ++ [(LOCAL_STORAGE_KEY, d)] }

/-- The `handleDataUpdate` callback of `vite.config.ts`: applies the updater
to the current aggregate and persists the result; with no aggregate it leaves
the state as is (`setData` of `null`) and does not persist. -/
def handleDataUpdate (st : UIState) (updater : AppData → AppData) : UIState :=
  match st.data with
  | none => st
  | some currentData =>
      let newData := updater currentData
      { saveLocalData st newData with data := some newData }

/-- The professor form data submitted to `handleAddProfessor`: the two routing
fields plus the `profCoreData` rest. -/
structure AddForm where
  branchName : String
  departmentId : String
  name : String
  email : String
  position : String
  degree : String
  description : String
  photo : String
  links : ProfessorLinks
  research : StrOrList
  projects : StrOrList
  companies : StrOrList
  websites : Option StrOrList
  institutes : Option StrOrList
deriving DecidableEq, Repr

/-- The professor form data submitted to `handleEditProfessor`:
`handleAddProfessor`'s fields plus the destructured `id`. -/
structure EditForm where
  id : Option String
  branchName : String
  departmentId : String
  name : String
  email : String
  position : String
  degree : String
  description : String
  photo : String
  links : ProfessorLinks
  research : StrOrList
  projects : StrOrList
  companies : StrOrList
  websites : Option StrOrList
  institutes : Option StrOrList
deriving DecidableEq, Repr

/-- The payload a mutation handler sends to `updateProfessor`: core fields
plus resolved routing ids; `underscoreId`/`idField` embed the `_id`/`id`
members set only by the edit path, and `branchName` the extra member set when
the edit path creates a branch. -/
structure ProfPayload where
  underscoreId : Option String
  idField : Option String
  name : String
  email : String
  position : String
  degree : String
  description : String
  photo : String
  links : ProfessorLinks
  research : StrOrList
  projects : StrOrList
  companies : StrOrList
  websites : Option StrOrList
  institutes : Option StrOrList
  branch : String
  departmentId : String
  departmentName : String
  branchName : Option String
deriving DecidableEq, Repr

/-- The `.toLowerCase()` of the branch-name comparisons, embedded as the
character-wise lowercase map. -/
def jsToLower (s : String) : String := String.mk (s.data.map Char.toLower)

/-- Branch resolution of `handleAddProfessor`:
`department.branches.map(bId => data.branches[bId]).find(b => b?.name.toLowerCase() === branchName.toLowerCase())`. -/
def findExistingBranchAdd (branches : List (String × Branch))
    (department : Department) (branchName : String) : Option Branch :=
  ((department.branches.map (fun bId => lookupKey branches bId)).find?
    (fun ob =>
      match ob with
      | some b => jsToLower b.name == jsToLower branchName
      | none => false)).join

/-- Branch resolution of `handleEditProfessor`: also accepts an exact id
match (`b.id === branchName`). -/
def findExistingBranchEdit (branches : List (String × Branch))
    (department : Department) (branchName : String) : Option Branch :=
  ((department.branches.map (fun bId => lookupKey branches bId)).find?
    (fun ob =>
      match ob with
      | some b => b.id == branchName ||
          jsToLower b.name == jsToLower branchName
      | none => false)).join

/-- The `profPayload` object built by `handleAddProfessor`. -/
def addProfPayload (form : AddForm) (branchId : String)
    (department : Department) : ProfPayload :=
  { underscoreId := none,
    idField := none,
    name := form.name,
    email := form.email,
    position := form.position,
    degree := form.degree,
    description := form.description,
    photo := form.photo,
    links := form.links,
    research := form.research,
    projects := form.projects,
    companies := form.companies,
    websites := form.websites,
    institutes := form.institutes,
    branch := branchId,
    departmentId := department.id,
    departmentName := department.name,
    branchName := none }

/-- The `handleAddProfessor` callback of `vite.config.ts`.  `now` is
`Date.now()` and `updateProfessor` the Remote Store call, a function of the
payload actually sent. -/
def handleAddProfessor (st : UIState) (form : AddForm) (now : Nat)
    (updateProfessor : ProfPayload → RemoteResult Professor) : UIState :=
  match st.data with
  | none => st
  | some data =>
    match data.departments.find? (fun d => d.id == form.departmentId) with
    | none => showToast st "Error: Selected department not found."
    | some department =>
      let existingBranch :=
        findExistingBranchAdd data.branches department form.branchName
      let branchId := match existingBranch with
        | some b => b.id
        | none => "branch_" ++ toString now
      let profPayload := addProfPayload form branchId department
      match updateProfessor profPayload with
      | RemoteResult.ok savedProf =>
          let key := jsKeyStr savedProf.underscoreId
          let st' := handleDataUpdate st (fun currentData =>
            { currentData with
                professors := setKey currentData.professors key
                  { savedProf with id := savedProf.underscoreId } })
          showToast st' "Professor added!"
      | RemoteResult.err =>
          showToast { st with apiStatus := ApiStatus.offline }
            "Failed to save professor."

/-- The `handleRemoveProfessor` callback of `vite.config.ts`.  `confirm` is
the `window.confirm` answer and `remote` the `deleteProfessor` outcome. -/
def handleRemoveProfessor (st : UIState) (profId : String) (confirm : Bool)
    (remote : RemoteResult Unit) : UIState :=
  if !confirm then st
  else
    match remote with
    | RemoteResult.ok _ =>
        let st' := handleDataUpdate st (fun d =>
          { d with professors := deleteKey d.professors profId })
        showToast st' "Professor removed."
    | RemoteResult.err => showToast st "Error removing professor."

/-- The `handleRemoveDepartment` callback of `vite.config.ts`: deletes
remotely, refetches the whole aggregate, and hands it to `setData` directly
(no `saveLocalData`); any failure of either call lands in the single `catch`.
The unused `deptId` argument mirrors the source signature. -/
def handleRemoveDepartment (st : UIState) (_deptId : String) (confirm : Bool)
    (deleteRes : RemoteResult Unit) (refetch : RemoteResult AppData) :
    UIState :=
  if !confirm then st
  else
    match deleteRes with
    | RemoteResult.err => showToast st "Error removing department."
    | RemoteResult.ok _ =>
        match refetch with
        | RemoteResult.err => showToast st "Error removing department."
        | RemoteResult.ok freshData =>
            showToast { st with data := some freshData } "Department removed."

/-- The payload object built by `handleEditProfessor` (`_id: id || undefined`,
`id: id || undefined`, the rest of the form, resolved routing ids, and
`branchName` only when a branch is being created). -/
def editProfPayload (form : EditForm) (branchId : String)
    (department : Department) (isNewBranch : Bool) : ProfPayload :=
  { underscoreId := jsOrStr form.id none,
    idField := jsOrStr form.id none,
    name := form.name,
    email := form.email,
    position := form.position,
    degree := form.degree,
    description := form.description,
    photo := form.photo,
    links := form.links,
    research := form.research,
    projects := form.projects,
    companies := form.companies,
    websites := form.websites,
    institutes := form.institutes,
    branch := branchId,
    departmentId := department.id,
    departmentName := department.name,
    branchName := if isNewBranch then some form.branchName else none }

/-- The branch-creation step shared by both arms of `handleEditProfessor`:
registers the new `Branch` object in the branch map and appends its id to the
owning department's branch list. -/
def addNewBranch (currentData : AppData) (branchId : String)
    (branchName : String) (department : Department) : AppData :=
  let newBranch : Branch :=
    { id := branchId, name := branchName, departmentId := some department.id }
  { currentData with
      branches := setKey currentData.branches branchId newBranch,
      departments := currentData.departments.map (fun d =>
        if d.id == department.id
        then { d with branches := d.branches ++ [branchId] }
        else d) }

/-- The professor record written by the offline arm of `handleEditProfessor`:
`{ ...rest, id: key, branch: branchId, departmentId, departmentName }`. -/
def offlineEditedProf (form : EditForm) (key : String) (branchId : String)
    (department : Department) : Professor :=
  { underscoreId := none,
    id := some key,
    name := form.name,
    email := form.email,
    position := form.position,
    degree := form.degree,
    branch := branchId,
    department := none,
    departmentId := some department.id,
    departmentName := some department.name,
    description := form.description,
    photo := form.photo,
    links := form.links,
    research := form.research,
    projects := form.projects,
    companies := form.companies,
    websites := form.websites,
    institutes := form.institutes }

/-- The `handleEditProfessor` callback of `vite.config.ts`.  On success the
saved record replaces the professor under `savedProf._id || savedProf.id ||
id`; on failure the edited record is written locally under `id ||
local_<now>`, connectivity goes offline, and the updater's own
`saveLocalData(updated)` runs in addition to the one in `handleDataUpdate`
(hence two identical cache writes). -/
def handleEditProfessor (st : UIState) (form : EditForm) (now : Nat)
    (updateProfessor : ProfPayload → RemoteResult Professor) : UIState :=
  match st.data with
  | none => st
  | some data =>
    match data.departments.find? (fun d => d.id == form.departmentId) with
    | none => showToast st "Selected department not found."
    | some department =>
      let existingBranch :=
        findExistingBranchEdit data.branches department form.branchName
      let branchId := match existingBranch with
        | some b => b.id
        | none => "branch_" ++ toString now
      let isNewBranch := existingBranch.isNone
      let payload := editProfPayload form branchId department isNewBranch
      match updateProfessor payload with
      | RemoteResult.ok savedProf =>
          let st' := handleDataUpdate st (fun currentData =>
            let updated :=
              if isNewBranch
              then addNewBranch currentData branchId form.branchName department
              else currentData
            let savedId :=
              jsOrStr savedProf.underscoreId (jsOrStr savedProf.id form.id)
            { updated with
                professors := setKey updated.professors (jsKeyStr savedId)
                  { savedProf with id := savedId } })
          showToast st' "Professor updated."
      | RemoteResult.err =>
          let st0 : UIState := { st with apiStatus := ApiStatus.offline }
          match st0.data with
          | none => st0
          | some currentData =>
              let updated :=
                if isNewBranch
                then addNewBranch currentData branchId form.branchName
                  department
                else currentData
              let key := jsKeyStr (jsOrStr form.id
                (some ("local_" ++ toString now)))
              let updated2 :=
                { updated with
                    professors := setKey updated.professors key
                      (offlineEditedProf form key branchId department) }
              showToast
                { saveLocalData (saveLocalData st0 updated2) updated2 with
                    data := some updated2 }
                "Professor updated locally (offline)."

/-- `MAX_RETRIES` of the `request` function in the `api` module. -/
def MAX_RETRIES : Nat := 2

/-- `RETRY_DELAY_MS` of the `request` function. -/
def RETRY_DELAY_MS : Nat := 500

/-- The body of a non-2xx response as seen by `request`: either the text does
not parse as JSON, or it parses but `errorJson.error` is absent or falsy, or
it parses with a string `error` member. -/
inductive ErrBody
  | notJson (text : String)
  | jsonNoError (text : String)
  | jsonWithError (e : String) (text : String)
deriving DecidableEq, Repr

/-- `errorMessage` as computed by `request`:
`errorJson.error || errorText` when the text parses as JSON, the raw text
otherwise. -/
def ErrBody.message : ErrBody → String
  | ErrBody.notJson text => text
  | ErrBody.jsonNoError text => text
  | ErrBody.jsonWithError e text => if e.isEmpty then text else e

/-- Message of the error thrown by `request` on a non-2xx response:
`new Error(errorMessage || 'HTTP ' + response.status)`. -/
def httpThrowMsg (status : Nat) (body : ErrBody) : String :=
  if body.message.isEmpty then "HTTP " ++ toString status else body.message

/-- One `fetch` attempt inside `request`: the promise rejected with a
`TypeError` mentioning `fetch` (a transient network error), rejected or threw
otherwise, resolved with a non-2xx response carrying an error body, or
resolved 2xx (whose body then parses as JSON or not). -/
inductive FetchOutcome
  | netFail
  | otherFail
  | respErr (status : Nat) (body : ErrBody)
  | respOk (jsonOk : Bool)
deriving DecidableEq, Repr

/-- How `request` ends: returning parsed data, or throwing an HTTP error (with
the computed message and attached status), a final network error, another
exception, or the 2xx-body JSON parse error. -/
inductive ReqOutcome
  | success
  | httpError (msg : String) (status : Nat)
  | netError
  | otherError
  | jsonFail
deriving DecidableEq, Repr

/-- Observable run of `request`: its outcome, the number of `fetch` attempts
performed, and the waits (ms) inserted before each retry. -/
structure ReqTrace where
  outcome : ReqOutcome
  attempts : Nat
  delays : List Nat
deriving DecidableEq, Repr

/-- The retry loop of `request`.  `script` gives the outcome of the `fetch` in
iteration `attempt`; `fuel` counts the loop iterations still allowed and is
`MAX_RETRIES + 1 - attempt` at every call, so the `fuel = 0` fallback is
unreachable (the loop body always returns or throws in its last iteration,
because `continue` requires `attempt < MAX_RETRIES`). -/
def requestAux (script : Nat → FetchOutcome) :
    Nat → Nat → List Nat → ReqTrace
  | _, 0, delays =>
      { outcome := ReqOutcome.netError, attempts := MAX_RETRIES + 1,
        delays := delays }
  | attempt, fuel + 1, delays =>
      match script attempt with
      | FetchOutcome.respOk true =>
          { outcome := ReqOutcome.success, attempts := attempt + 1,
            delays := delays }
      | FetchOutcome.respOk false =>
          { outcome := ReqOutcome.jsonFail, attempts := attempt + 1,
            delays := delays }
      | FetchOutcome.respErr status body =>
          { outcome := ReqOutcome.httpError (httpThrowMsg status body) status,
            attempts := attempt + 1, delays := delays }
      | FetchOutcome.otherFail =>
          { outcome := ReqOutcome.otherError, attempts := attempt + 1,
            delays := delays }
      | FetchOutcome.netFail =>
          if attempt < MAX_RETRIES then
            requestAux script (attempt + 1) fuel
              (delays ++ [RETRY_DELAY_MS * (attempt + 1)])
          else
            { outcome := ReqOutcome.netError, attempts := attempt + 1,
              delays := delays }

/-- The `request` function of the `api` module, over a script of per-attempt
`fetch` outcomes. -/
def request (script : Nat → FetchOutcome) : ReqTrace :=
  requestAux script 0 (MAX_RETRIES + 1) []

/-- A JavaScript value passed to `escapeHtml` (numbers split into `NaN` and
integer values; the flows only ever pass strings, numbers and missing
values). -/
inductive JSVal
  | vstr (s : String)
  | vnum (n : Int)
  | vnan
  | vbool (b : Bool)
  | vnull
  | vundef
deriving DecidableEq, Repr

/-- JavaScript truthiness of a `JSVal`. -/
def JSVal.truthy : JSVal → Bool
  | JSVal.vstr s => !s.isEmpty
  | JSVal.vnum n => n != 0
  | JSVal.vnan => false
  | JSVal.vbool b => b
  | JSVal.vnull => false
  | JSVal.vundef => false

/-- The `str !== 0` test of `escapeHtml`: strict equality with the number
`0`. -/
def JSVal.strictEqZero : JSVal → Bool
  | JSVal.vnum n => n == 0
  | _ => false

/-- `String(str)` on the embedded values (decimal rendering for integers
matches JavaScript). -/
def jsString : JSVal → String
  | JSVal.vstr s => s
  | JSVal.vnum n => toString n
  | JSVal.vnan => "NaN"
  | JSVal.vbool b => if b then "true" else "false"
  | JSVal.vnull => "null"
  | JSVal.vundef => "undefined"

/-- The double-quote character. -/
def quotChar : Char := Char.ofNat 34

/-- The single-quote character. -/
def aposChar : Char := Char.ofNat 39

/-- The replacement text for single quotes in `escapeHtml`
(ampersand, hash, `039`, semicolon). -/
def aposEntity : List Char := ['&', '#', '0', '3', '9', Char.ofNat 59]

/-- One `.replace(/c/g, rep)` pass with a single-character pattern: every
occurrence of `target` becomes `rep`. -/
def replaceAllChar (target : Char) (rep : List Char) : List Char → List Char
  | [] => []
  | c :: cs => (if c = target then rep else [c]) ++ replaceAllChar target rep cs

/-- `escapeHtml` of `alumni_search.js`: falsy inputs other than the number `0`
yield the empty string; otherwise the stringified value goes through the five
sequential replacement passes. -/
def escapeHtml (v : JSVal) : String :=
  if !v.truthy && !v.strictEqZero then ""
  else
    let s1 := replaceAllChar '&' "&amp;".data (jsString v).data
    let s2 := replaceAllChar '<' "&lt;".data s1
    let s3 := replaceAllChar '>' "&gt;".data s2
    let s4 := replaceAllChar quotChar "&quot;".data s3
    let s5 := replaceAllChar aposChar aposEntity s4
    String.mk s5

/-- The `URL` object state used by `normalizeUrl`: scheme, host, path, the
`searchParams` entry list and the fragment.  Parsing and serialization belong
to the browser's `URL` platform API and are passed in as explicit
functions. -/
structure URLRec where
  protocol : String
  host : String
  pathname : String
  searchParams : List (String × String)
  hash : String
deriving DecidableEq, Repr

/-- The tracking parameter names deleted by `normalizeUrl`. -/
def TRACKING_PARAMS : List String :=
  ["utm_source", "utm_medium", "utm_campaign", "utm_term", "utm_content",
   "fbclid", "gclid"]

/-- The `params.delete(p)` loop of `normalizeUrl`: removes every entry whose
name is one of the tracking parameters. -/
def dropTrackingParams (u : URLRec) : URLRec :=
  { u with searchParams :=
      u.searchParams.filter (fun kv => !TRACKING_PARAMS.contains kv.1) }

/-- `normalizeUrl` of `vite.config.ts`, with the browser `URL` constructor and
serializer abstracted as `parse` (returning `none` when the constructor
throws) and `render`.  On a parse failure the `catch` returns the raw
string. -/
def normalizeUrl (parse : String → Option URLRec) (render : URLRec → String)
    (raw : String) : String :=
  match parse raw with
  | none => raw
  | some u => render { dropTrackingParams u with hash := "" }


theorem lookupKey_append_some {α : Type} {l1 : List (String × α)}
    (l2 : List (String × α)) {k : String} {v : α}
    (h : lookupKey l1 k = some v) : lookupKey (l1 ++ l2) k = some v := by
  induction l1 with
  | nil => simp [lookupKey] at h
  | cons x rest ih =>
      obtain ⟨kx, vx⟩ := x
      rw [List.cons_append]
      simp only [lookupKey] at h ⊢
      by_cases hk : kx = k
      · rw [if_pos hk] at h ⊢; exact h
      · rw [if_neg hk] at h ⊢; exact ih h

theorem lookupKey_append_none {α : Type} {l1 : List (String × α)}
    (l2 : List (String × α)) {k : String}
    (h : lookupKey l1 k = none) : lookupKey (l1 ++ l2) k = lookupKey l2 k := by
  induction l1 with
  | nil => simp [lookupKey]
  | cons x rest ih =>
      obtain ⟨kx, vx⟩ := x
      rw [List.cons_append]
      simp only [lookupKey] at h ⊢
      by_cases hk : kx = k
      · rw [if_pos hk] at h; exact absurd h (by simp)
      · rw [if_neg hk] at h ⊢; exact ih h

theorem mem_lookupKey_isSome {α : Type} {l : List (String × α)}
    {kv : String × α} (h : kv ∈ l) : (lookupKey l kv.1).isSome := by
  induction l with
  | nil => simp at h
  | cons x rest ih =>
      obtain ⟨kx, vx⟩ := x
      simp only [lookupKey]
      by_cases hk : kx = kv.1
      · rw [if_pos hk]; rfl
      · rw [if_neg hk]
        rcases List.mem_cons.mp h with h' | h'
        · exact absurd (congrArg Prod.fst h'.symm) hk
        · exact ih h'

theorem mergeMissing_cons {α : Type} (base : List (String × α))
    (x : String × α) (s : List (String × α)) :
    mergeMissing base (x :: s) =
      mergeMissing (if (lookupKey base x.1).isSome then base else base ++ [x])
        s := rfl

theorem mergeMissing_lookup_base {α : Type} {base : List (String × α)}
    (seed : List (String × α)) {k : String} {v : α}
    (h : lookupKey base k = some v) :
    lookupKey (mergeMissing base seed) k = some v := by
  induction seed generalizing base with
  | nil => exact h
  | cons x s ih =>
      rw [mergeMissing_cons]
      by_cases hp : (lookupKey base x.1).isSome
      · rw [if_pos hp]; exact ih h
      · rw [if_neg hp]; exact ih (lookupKey_append_some _ h)

theorem mergeMissing_lookup_seed {α : Type} {base : List (String × α)}
    {seed : List (String × α)} {k : String} {v : α}
    (hbase : lookupKey base k = none) (hseed : lookupKey seed k = some v) :
    lookupKey (mergeMissing base seed) k = some v := by
  induction seed generalizing base with
  | nil => simp [lookupKey] at hseed
  | cons x s ih =>
      obtain ⟨kx, vx⟩ := x
      rw [mergeMissing_cons]
      simp only [lookupKey] at hseed
      by_cases hk : kx = k
      · rw [if_pos hk] at hseed
        have hbx : lookupKey base (kx, vx).1 = none := by
          simpa [hk] using hbase
        rw [hbx]
        simp only [Option.isSome_none, Bool.false_eq_true, if_false]
        apply mergeMissing_lookup_base
        rw [lookupKey_append_none _ hbase]
        simpa [lookupKey, hk] using hseed
      · rw [if_neg hk] at hseed
        by_cases hp : (lookupKey base (kx, vx).1).isSome
        · rw [if_pos hp]; exact ih hbase hseed
        · rw [if_neg hp]
          refine ih ?_ hseed
          rw [lookupKey_append_none _ hbase]
          simp [lookupKey, hk]

theorem mergeMissing_eq_self {α : Type} {base seed : List (String × α)}
    (h : ∀ kv ∈ seed, (lookupKey base kv.1).isSome) :
    mergeMissing base seed = base := by
  induction seed with
  | nil => rfl
  | cons x s ih =>
      rw [mergeMissing_cons, if_pos (h x (List.mem_cons_self x s))]
      exact ih (fun kv hkv => h kv (List.mem_cons_of_mem x hkv))

theorem mergeMissing_isSome_of_seed {α : Type} (base : List (String × α))
    {seed : List (String × α)} {kv : String × α} (h : kv ∈ seed) :
    (lookupKey (mergeMissing base seed) kv.1).isSome := by
  rcases hb : lookupKey base kv.1 with _ | v
  · rcases Option.isSome_iff_exists.mp (mem_lookupKey_isSome h) with ⟨v, hv⟩
    rw [mergeMissing_lookup_seed hb hv]
    rfl
  · rw [mergeMissing_lookup_base _ hb]
    rfl

theorem lookupKey_setKey {α : Type} (m : List (String × α)) (k : String)
    (v : α) : lookupKey (setKey m k v) k = some v := by
  induction m with
  | nil => simp [setKey, lookupKey]
  | cons x rest ih =>
      obtain ⟨kx, vx⟩ := x
      simp only [setKey]
      by_cases hk : kx = k
      · rw [if_pos hk]; simp [lookupKey]
      · rw [if_neg hk]
        simp only [lookupKey, if_neg hk]
        exact ih

theorem setKey_of_absent {α : Type} {m : List (String × α)} {k : String}
    (v : α) (h : lookupKey m k = none) : setKey m k v = m ++ [(k, v)] := by
  induction m with
  | nil => rfl
  | cons x rest ih =>
      obtain ⟨kx, vx⟩ := x
      simp only [lookupKey] at h
      by_cases hk : kx = k
      · rw [if_pos hk] at h; exact absurd h (by simp)
      · rw [if_neg hk] at h
        simp only [setKey, if_neg hk, List.cons_append, List.cons.injEq,
          true_and]
        exact ih h

theorem mergeObjInto_some {α : Type} (m : List (String × α))
    (seed : List (String × α)) :
    mergeObjInto (some m) seed = Except.ok (some (mergeMissing m seed)) := by
  cases seed <;> rfl

theorem mergeFallbackInto_eq {b : Blob} {deps : List Department}
    {brs : List (String × Branch)} {prs : List (String × Professor)}
    (hdeps : b.departments = some deps) (hbrs : b.branches = some brs)
    (hprs : b.professors = some prs) :
    mergeFallbackInto b =
      Except.ok
        { departments := some (mergeDepartmentsInto deps),
          branches := some (mergeMissing brs fallbackBranches),
          professors := some (mergeMissing prs fallbackProfessors),
          news := b.news } := by
  unfold mergeFallbackInto
  rw [hdeps, hbrs, hprs, mergeObjInto_some, mergeObjInto_some]

/-- The empty aggregate, used to instantiate general theorems. -/
def emptyAppData : AppData :=
  { departments := [], branches := [], professors := [], news := [] }

theorem mem_mergeDepartmentsInto {deps : List Department} {d : Department}
    (hmem : d ∈ fallbackDepartments) (habs : ∀ d' ∈ deps, d'.id ≠ d.id) :
    d ∈ mergeDepartmentsInto deps := by
  refine List.mem_append_right _ (List.mem_filter.mpr ⟨hmem, ?_⟩)
  have hid : d.id ∉ deps.map Department.id := by
    simp only [List.mem_map, not_exists, not_and]
    exact fun d' hd' => habs d' hd'
  simpa using hid

/-- **C1** For every base aggregate chosen by `load()` (remote, cache, or
seed), the seed merge is first-writer-wins: every department, branch and
professor identifier present in the Seed Dataset but absent from the base is
added to the returned aggregate with the seed's exact field values, and every
identifier present in the base keeps the base's entry unchanged (the seed
entry never replaces it, and the base departments stay in place as a prefix
of the merged list). -/
theorem C1_seed_merge_first_writer_wins
    (b : Blob) (deps : List Department) (brs : List (String × Branch))
    (prs : List (String × Professor))
    (hdeps : b.departments = some deps)
    (hbrs : b.branches = some brs)
    (hprs : b.professors = some prs) :
    ∃ ds bs ps,
      mergeFallbackInto b =
        Except.ok { departments := some ds, branches := some bs,
                    professors := some ps, news := b.news } ∧
      (∃ extra, ds = deps ++ extra) ∧
      (∀ d ∈ fallbackDepartments,
        (∀ d' ∈ deps, d'.id ≠ d.id) → d ∈ ds) ∧
      (∀ k p, lookupKey prs k = some p → lookupKey ps k = some p) ∧
      (∀ k p, lookupKey fallbackProfessors k = some p →
        lookupKey prs k = none → lookupKey ps k = some p) ∧
      (∀ k br, lookupKey brs k = some br → lookupKey bs k = some br) ∧
      (∀ k br, lookupKey fallbackBranches k = some br →
        lookupKey brs k = none → lookupKey bs k = some br) := by
  refine ⟨mergeDepartmentsInto deps, mergeMissing brs fallbackBranches,
    mergeMissing prs fallbackProfessors,
    mergeFallbackInto_eq hdeps hbrs hprs, ⟨_, rfl⟩, ?_, ?_, ?_, ?_, ?_⟩
  · exact fun d hmem habs => mem_mergeDepartmentsInto hmem habs
  · exact fun k p h => mergeMissing_lookup_base _ h
  · exact fun k p hseed hbase => mergeMissing_lookup_seed hbase hseed
  · exact fun k br h => mergeMissing_lookup_base _ h
  · exact fun k br hseed hbase => mergeMissing_lookup_seed hbase hseed

/-- Witness for C1: the merge over the empty base aggregate. -/
theorem C1_seed_merge_first_writer_wins_witness :
    ∃ ds bs ps,
      mergeFallbackInto emptyAppData.toBlob =
        Except.ok { departments := some ds, branches := some bs,
                    professors := some ps, news := emptyAppData.toBlob.news } ∧
      (∃ extra, ds = [] ++ extra) ∧
      (∀ d ∈ fallbackDepartments,
        (∀ d' ∈ ([] : List Department), d'.id ≠ d.id) → d ∈ ds) ∧
      (∀ k p, lookupKey ([] : List (String × Professor)) k = some p → lookupKey ps k = some p) ∧
      (∀ k p, lookupKey fallbackProfessors k = some p →
        lookupKey ([] : List (String × Professor)) k = none → lookupKey ps k = some p) ∧
      (∀ k br, lookupKey ([] : List (String × Branch)) k = some br → lookupKey bs k = some br) ∧
      (∀ k br, lookupKey fallbackBranches k = some br →
        lookupKey ([] : List (String × Branch)) k = none → lookupKey bs k = some br) :=
  C1_seed_merge_first_writer_wins emptyAppData.toBlob [] [] [] rfl rfl rfl

theorem mergeDepartmentsInto_idem (deps : List Department) :
    mergeDepartmentsInto (mergeDepartmentsInto deps) =
      mergeDepartmentsInto deps := by
  have hall : ∀ d ∈ fallbackDepartments,
      d.id ∈ (mergeDepartmentsInto deps).map Department.id := by
    intro d hd
    by_cases hmem : d.id ∈ deps.map Department.id
    · rcases List.mem_map.mp hmem with ⟨d', hd', he⟩
      exact List.mem_map.mpr ⟨d', List.mem_append_left _ hd', he⟩
    · refine List.mem_map.mpr ⟨d, List.mem_append_right _ ?_, rfl⟩
      refine List.mem_filter.mpr ⟨hd, ?_⟩
      simpa using hmem
  have hfil : fallbackDepartments.filter
      (fun d =>
        !((mergeDepartmentsInto deps).map Department.id).contains d.id) =
          [] := by
    rw [List.filter_eq_nil_iff]
    intro d hd
    simpa using hall d hd
  conv_lhs => rw [mergeDepartmentsInto]
  rw [hfil, List.append_nil]

theorem mergeFallbackInto_shape {b m : Blob}
    (h : mergeFallbackInto b = Except.ok m) :
    ∃ deps brs prs, b.departments = some deps ∧ b.branches = some brs ∧
      b.professors = some prs ∧
      m = { departments := some (mergeDepartmentsInto deps),
            branches := some (mergeMissing brs fallbackBranches),
            professors := some (mergeMissing prs fallbackProfessors),
            news := b.news } := by
  rcases hd : b.departments with _ | deps
  · rw [mergeFallbackInto, hd] at h
    exact absurd h (by simp)
  · rcases hp : b.professors with _ | prs
    · rw [mergeFallbackInto, hd] at h
      have : mergeObjInto b.professors fallbackProfessors =
          Except.error () := by
        rw [hp]; rfl
      rw [this] at h
      exact absurd h (by simp)
    · rcases hbr : b.branches with _ | brs
      · rw [mergeFallbackInto, hd, hp, mergeObjInto_some] at h
        have : mergeObjInto b.branches fallbackBranches =
            Except.error () := by
          rw [hbr]; rfl
        rw [this] at h
        exact absurd h (by simp)
      · rw [mergeFallbackInto_eq hd hbr hp] at h
        exact ⟨deps, brs, prs, rfl, rfl, rfl, (Except.ok.inj h).symm⟩

theorem mergeMissing_idem {α : Type} (base seed : List (String × α)) :
    mergeMissing (mergeMissing base seed) seed = mergeMissing base seed :=
  mergeMissing_eq_self
    (fun _ hkv => mergeMissing_isSome_of_seed base hkv)

theorem mergeFallbackInto_idem {b m : Blob}
    (h : mergeFallbackInto b = Except.ok m) :
    mergeFallbackInto m = Except.ok m := by
  rcases mergeFallbackInto_shape h with ⟨deps, brs, prs, _, _, _, hm⟩
  subst hm
  rw [mergeFallbackInto_eq rfl rfl rfl, mergeDepartmentsInto_idem,
    mergeMissing_idem, mergeMissing_idem]

/-- **C7** The seed merge is idempotent: merging the Seed Dataset into an
aggregate twice yields exactly the merge-once result (departments list,
branch map and professor map included), and re-running `load()` over a cache
that already holds a merged result returns that result unchanged — no
duplicate department entries appear. -/
theorem C7_seed_merge_idempotent {b m : Blob}
    (h : mergeFallbackInto b = Except.ok m) :
    mergeFallbackInto m = Except.ok m ∧
      loadData RemoteFetch.err (some m) =
        Except.ok { data := m, status := ApiStatus.offline } := by
  have hidem := mergeFallbackInto_idem h
  refine ⟨hidem, ?_⟩
  simp only [loadData]
  rw [hidem]

/-- Witness for C7: merging into the empty aggregate yields exactly the Seed
Dataset, and merging again (or reloading from a cache holding it) changes
nothing. -/
theorem C7_seed_merge_idempotent_witness :
    mergeFallbackInto fallbackData.toBlob = Except.ok fallbackData.toBlob ∧
      loadData RemoteFetch.err (some fallbackData.toBlob) =
        Except.ok { data := fallbackData.toBlob,
                    status := ApiStatus.offline } :=
  C7_seed_merge_idempotent
    (show mergeFallbackInto emptyAppData.toBlob =
      Except.ok fallbackData.toBlob from rfl)

/-- A candidate aggregate carrying all three maps the merge block reads
(`departments`, `professors`, `branches`). -/
def Blob.hasAllMaps (b : Blob) : Prop :=
  b.departments.isSome ∧ b.professors.isSome ∧ b.branches.isSome

theorem lookupKey_ne_nil {α : Type} {l : List (String × α)} {k : String}
    {v : α} (h : lookupKey l k = some v) : l ≠ [] := by
  intro he
  subst he
  simp [lookupKey] at h

theorem mergeFallbackInto_nonempty {b : Blob} (hb : b.hasAllMaps) :
    ∃ m ps, mergeFallbackInto b = Except.ok m ∧
      m.professors = some ps ∧ ps ≠ [] := by
  rcases Option.isSome_iff_exists.mp hb.1 with ⟨deps, hdeps⟩
  rcases Option.isSome_iff_exists.mp hb.2.1 with ⟨prs, hprs⟩
  rcases Option.isSome_iff_exists.mp hb.2.2 with ⟨brs, hbrs⟩
  refine ⟨_, mergeMissing prs fallbackProfessors,
    mergeFallbackInto_eq hdeps hbrs hprs, rfl, ?_⟩
  have hseed : ∃ p, lookupKey fallbackProfessors "prof_ece_1" = some p :=
    ⟨_, rfl⟩
  rcases hseed with ⟨p, hp⟩
  rcases hbase : lookupKey prs "prof_ece_1" with _ | v
  · exact lookupKey_ne_nil (mergeMissing_lookup_seed hbase hp)
  · exact lookupKey_ne_nil (mergeMissing_lookup_base _ hbase)

/-- **C2 (amended)** `load()` does not throw and returns an aggregate with a
non-empty professor map whenever every base it can adopt is structurally
well-formed: the Local Cache is absent, unreadable, or holds a value carrying
the `departments`, `professors` and `branches` maps, and any Remote payload
that passes the `departments` check carries all three maps as well.  (The
original claim, quantified over arbitrary cached values, fails: see the
counterexample.) -/
theorem C2_load_total_nonempty (remote : RemoteFetch) (cache : Option Blob)
    (hcache : ∀ b, cache = some b → b.hasAllMaps)
    (hremote : ∀ v, remote = RemoteFetch.ok v → v.departments.isSome →
      v.hasAllMaps) :
    ∃ out ps, loadData remote cache = Except.ok out ∧
      out.data.professors = some ps ∧ ps ≠ [] := by
  have hfb : Blob.hasAllMaps fallbackData.toBlob := ⟨rfl, rfl, rfl⟩
  have hfrom : ∀ b, (match cache with
      | some c => c
      | none => fallbackData.toBlob) = b → b.hasAllMaps := by
    rcases cache with _ | c
    · intro b hb; exact hb ▸ hfb
    · intro b hb; exact hb ▸ hcache c rfl
  rcases remote with v | _
  · by_cases hv : v.departments.isSome
    · rcases mergeFallbackInto_nonempty (hremote v rfl hv) with
        ⟨m, ps, hm, hps, hne⟩
      refine ⟨⟨m, ApiStatus.connected⟩, ps, ?_, hps, hne⟩
      simp only [loadData, hv, if_true]
      rw [hm]
    · rcases mergeFallbackInto_nonempty (hfrom _ rfl) with
        ⟨m, ps, hm, hps, hne⟩
      refine ⟨⟨m, ApiStatus.offline⟩, ps, ?_, hps, hne⟩
      simp only [loadData, hv, Bool.false_eq_true, if_false]
      rw [hm]
  · rcases mergeFallbackInto_nonempty (hfrom _ rfl) with ⟨m, ps, hm, hps, hne⟩
    refine ⟨⟨m, ApiStatus.offline⟩, ps, ?_, hps, hne⟩
    simp only [loadData]
    rw [hm]

/-- Witness for C2: remote down and no cache — the seed path. -/
theorem C2_load_total_nonempty_witness :
    ∃ out ps, loadData RemoteFetch.err none = Except.ok out ∧
      out.data.professors = some ps ∧ ps ≠ [] :=
  C2_load_total_nonempty RemoteFetch.err none (fun b hb => by cases hb)
    (fun v hv => by cases hv)

/-- Counterexample for C2 as stated: with the Remote Store failing and the
Local Cache holding the JSON-parseable value whose `departments` is `[]` but
which lacks `professors` and `branches`, the merge block of `loadData` reads
a property of `undefined` and the call throws instead of returning an
aggregate. -/
theorem C2_counterexample_load_throws :
    loadData RemoteFetch.err
      (some { departments := some [], branches := none, professors := none,
              news := none }) = Except.error () := rfl

/-- The aggregate produced by the offline arm of `handleEditProfessor`
(spelled out from the handler's `catch` branch, for use in statements). -/
def editOfflineResultData (d : AppData) (dept : Department) (form : EditForm)
    (now : Nat) : AppData :=
  let existingBranch := findExistingBranchEdit d.branches dept form.branchName
  let branchId := match existingBranch with
    | some b => b.id
    | none => "branch_" ++ toString now
  let updated :=
    if existingBranch.isNone
    then addNewBranch d branchId form.branchName dept
    else d
  let key := jsKeyStr (jsOrStr form.id (some ("local_" ++ toString now)))
  { updated with
      professors := setKey updated.professors key
        (offlineEditedProf form key branchId dept) }

/-- Department used to instantiate the mutation-handler theorems. -/
def deptD1 : Department := { id := "d1", name := "CS", branches := ["b1"] }

/-- The single branch of `deptD1`. -/
def branchB1 : Branch := { id := "b1", name := "AI", departmentId := some "d1" }

/-- A one-department aggregate whose only branch is `b1` (`AI`). -/
def appD1 : AppData :=
  { departments := [deptD1],
    branches := [("b1", branchB1)],
    professors := [],
    news := [] }

/-- A connected session holding `appD1` with no toasts and no cache
writes. -/
def stD1 : UIState :=
  { data := some appD1,
    apiStatus := ApiStatus.connected,
    toasts := [],
    cacheWrites := [] }

/-- An edit form targeting department `d1` with the branch name `ai`
(case-insensitively matching branch `b1`). -/
def editFormAi : EditForm :=
  { id := some "p7",
    branchName := "ai",
    departmentId := "d1",
    name := "N",
    email := "E",
    position := "P",
    degree := "G",
    description := "D",
    photo := "F",
    links := { awards := "", webpage := "", bio := "" },
    research := StrOrList.many [],
    projects := StrOrList.many [],
    companies := StrOrList.many [],
    websites := none,
    institutes := none }

/-- **C3** When Edit's Remote Store call fails, the edited record with the
submitted field values is written into the in-memory professor map under its
existing identifier (or the freshly synthesized `local_<now>` when the record
had none), connectivity becomes offline, and the updated aggregate is
persisted to the Local Cache under the fixed key (twice: once by the
updater's own `saveLocalData`, once by `handleDataUpdate`). -/
theorem C3_edit_offline_fallback (st : UIState) (d : AppData)
    (dept : Department) (form : EditForm) (now : Nat)
    (hdata : st.data = some d)
    (hdept : d.departments.find? (fun dd => dd.id == form.departmentId) =
      some dept) :
    handleEditProfessor st form now (fun _ => RemoteResult.err) =
      { data := some (editOfflineResultData d dept form now),
        apiStatus := ApiStatus.offline,
        toasts := st.toasts ++ ["Professor updated locally (offline)."],
        cacheWrites := st.cacheWrites ++
          [(LOCAL_STORAGE_KEY, editOfflineResultData d dept form now),
           (LOCAL_STORAGE_KEY, editOfflineResultData d dept form now)] } ∧
    ∀ key branchId,
      key = jsKeyStr (jsOrStr form.id (some ("local_" ++ toString now))) →
      branchId = (match findExistingBranchEdit d.branches dept
          form.branchName with
        | some b => b.id
        | none => "branch_" ++ toString now) →
      lookupKey (editOfflineResultData d dept form now).professors key =
        some (offlineEditedProf form key branchId dept) := by
  constructor
  · simp only [handleEditProfessor, hdata, hdept, showToast, saveLocalData,
      editOfflineResultData, List.append_assoc, List.cons_append,
      List.nil_append]
  · intro key branchId hkey hbr
    subst hkey hbr
    simp only [editOfflineResultData]
    exact lookupKey_setKey _ _ _

/-- Witness for C3: editing professor `p7` of the one-department aggregate
while the Remote Store is down. -/
theorem C3_edit_offline_fallback_witness :
    handleEditProfessor stD1 editFormAi 7 (fun _ => RemoteResult.err) =
      { data := some (editOfflineResultData appD1 deptD1 editFormAi 7),
        apiStatus := ApiStatus.offline,
        toasts := stD1.toasts ++ ["Professor updated locally (offline)."],
        cacheWrites := stD1.cacheWrites ++
          [(LOCAL_STORAGE_KEY,
            editOfflineResultData appD1 deptD1 editFormAi 7),
           (LOCAL_STORAGE_KEY,
            editOfflineResultData appD1 deptD1 editFormAi 7)] } ∧
    ∀ key branchId,
      key = jsKeyStr (jsOrStr editFormAi.id
        (some ("local_" ++ toString 7))) →
      branchId = (match findExistingBranchEdit appD1.branches deptD1
          editFormAi.branchName with
        | some b => b.id
        | none => "branch_" ++ toString 7) →
      lookupKey (editOfflineResultData appD1 deptD1 editFormAi 7).professors
          key =
        some (offlineEditedProf editFormAi key branchId deptD1) :=
  C3_edit_offline_fallback stD1 appD1 deptD1 editFormAi 7 (by rfl) (by decide)

/-- **C4** For Add Professor, Remove Professor and Remove Department alike:
when the Remote Store call fails, the session state is unchanged except for a
user-facing failure toast (Add also flips connectivity to offline) — the
in-memory aggregate and the Local Cache are untouched, so none of the three
operations has an offline-write fallback.  For Remove Department this covers
both a failing delete and a delete whose follow-up refetch fails. -/
theorem C4_no_offline_write_on_failure (st : UIState) (d : AppData)
    (dept : Department) (form : AddForm) (profId deptId : String) (now : Nat)
    (refetch : RemoteResult AppData)
    (hdata : st.data = some d)
    (hdept : d.departments.find? (fun dd => dd.id == form.departmentId) =
      some dept) :
    handleAddProfessor st form now (fun _ => RemoteResult.err) =
      { st with apiStatus := ApiStatus.offline,
                toasts := st.toasts ++ ["Failed to save professor."] } ∧
    handleRemoveProfessor st profId true RemoteResult.err =
      { st with toasts := st.toasts ++ ["Error removing professor."] } ∧
    handleRemoveDepartment st deptId true RemoteResult.err refetch =
      { st with toasts := st.toasts ++ ["Error removing department."] } ∧
    handleRemoveDepartment st deptId true (RemoteResult.ok ())
        RemoteResult.err =
      { st with toasts := st.toasts ++ ["Error removing department."] } := by
  refine ⟨?_, rfl, rfl, rfl⟩
  simp only [handleAddProfessor, hdata, hdept, showToast]

/-- Witness for C4: the three failing operations on the one-department
session. -/
theorem C4_no_offline_write_on_failure_witness :
    handleAddProfessor stD1
        { branchName := "Robotics", departmentId := "d1", name := "N",
          email := "E", position := "P", degree := "G", description := "D",
          photo := "F", links := { awards := "", webpage := "", bio := "" },
          research := StrOrList.many [], projects := StrOrList.many [],
          companies := StrOrList.many [], websites := none,
          institutes := none }
        99 (fun _ => RemoteResult.err) =
      { stD1 with apiStatus := ApiStatus.offline,
                  toasts := stD1.toasts ++ ["Failed to save professor."] } ∧
    handleRemoveProfessor stD1 "p1" true RemoteResult.err =
      { stD1 with toasts := stD1.toasts ++ ["Error removing professor."] } ∧
    handleRemoveDepartment stD1 "d1" true RemoteResult.err
        (RemoteResult.ok emptyAppData) =
      { stD1 with toasts := stD1.toasts ++ ["Error removing department."] } ∧
    handleRemoveDepartment stD1 "d1" true (RemoteResult.ok ())
        RemoteResult.err =
      { stD1 with toasts := stD1.toasts ++ ["Error removing department."] } :=
  C4_no_offline_write_on_failure stD1 appD1 deptD1 _ "p1" "d1" 99
    (RemoteResult.ok emptyAppData) rfl (by decide)

/-- The payload `handleAddProfessor` hands to `updateProfessor` (`none` when
the department lookup fails and no call is made); mirrors the handler's own
payload construction. -/
def addSentPayload (d : AppData) (form : AddForm) (now : Nat) :
    Option ProfPayload :=
  match d.departments.find? (fun dd => dd.id == form.departmentId) with
  | none => none
  | some department =>
      let existingBranch :=
        findExistingBranchAdd d.branches department form.branchName
      let branchId := match existingBranch with
        | some b => b.id
        | none => "branch_" ++ toString now
      some (addProfPayload form branchId department)

/-- The payload `handleEditProfessor` hands to `updateProfessor` (`none` when
the department lookup fails and no call is made); mirrors the handler's own
payload construction. -/
def editSentPayload (d : AppData) (form : EditForm) (now : Nat) :
    Option ProfPayload :=
  match d.departments.find? (fun dd => dd.id == form.departmentId) with
  | none => none
  | some department =>
      let existingBranch :=
        findExistingBranchEdit d.branches department form.branchName
      let branchId := match existingBranch with
        | some b => b.id
        | none => "branch_" ++ toString now
      some (editProfPayload form branchId department existingBranch.isNone)

/-- A server-returned professor record used to instantiate success paths. -/
def srvProf : Professor :=
  { underscoreId := some "srv1",
    id := some "pSrv",
    name := "Srv",
    email := "e",
    position := "p",
    degree := "d",
    branch := "branch_99",
    department := none,
    departmentId := some "d1",
    departmentName := some "CS",
    description := "",
    photo := "",
    links := { awards := "", webpage := "", bio := "" },
    research := StrOrList.many [],
    projects := StrOrList.many [],
    companies := StrOrList.many [],
    websites := none,
    institutes := none }

/-- The add form with the non-matching branch name `Robotics`. -/
def addFormRobotics : AddForm :=
  { branchName := "Robotics",
    departmentId := "d1",
    name := "N",
    email := "E",
    position := "P",
    degree := "G",
    description := "D",
    photo := "F",
    links := { awards := "", webpage := "", bio := "" },
    research := StrOrList.many [],
    projects := StrOrList.many [],
    companies := StrOrList.many [],
    websites := none,
    institutes := none }

/-- Counterexample for C5 as stated: in the Add mutation path with the
non-matching branch name `Robotics`, a time-based identifier is synthesized
for the payload, yet no new Branch entry is registered in the branch map and
nothing is appended to the department's branch list — even on a successful
remote call. -/
theorem C5_counterexample_add_registers_no_branch :
    findExistingBranchAdd appD1.branches deptD1 "Robotics" = none ∧
    addSentPayload appD1 addFormRobotics 99 =
      some (addProfPayload addFormRobotics "branch_99" deptD1) ∧
    (handleAddProfessor stD1 addFormRobotics 99
      (fun _ => RemoteResult.ok srvProf)).data.map AppData.branches =
      some [("b1", branchB1)] ∧
    (handleAddProfessor stD1 addFormRobotics 99
      (fun _ => RemoteResult.ok srvProf)).data.map AppData.departments =
      some [deptD1] := by
  refine ⟨by decide, by decide, ?_, ?_⟩ <;> rfl

/-- **C5 (amended)** Branch resolution in the mutation path: a branch name
matching an existing branch of the target department (case-insensitive name
comparison; Edit also accepts an exact id match) reuses that branch's
identifier in the payload and creates no new branch.  A non-matching name
synthesizes the time-based identifier `branch_<now>` for the payload; in
Edit this registers exactly one new Branch entry in the branch map and
appends its identifier to the department's branch list (on success and on
offline fallback alike), but in Add no Branch is ever registered locally and
the department's branch list is never touched (see the counterexample). -/
theorem C5_branch_resolution (st : UIState) (d : AppData) (dept : Department)
    (b : Branch) (form : AddForm) (eform : EditForm) (now : Nat)
    (hdata : st.data = some d)
    (hdeptA : d.departments.find? (fun dd => dd.id == form.departmentId) =
      some dept)
    (hdeptE : d.departments.find? (fun dd => dd.id == eform.departmentId) =
      some dept) :
    (∀ rf,
      (handleAddProfessor st form now rf).data.map AppData.branches =
        st.data.map AppData.branches ∧
      (handleAddProfessor st form now rf).data.map AppData.departments =
        st.data.map AppData.departments) ∧
    (findExistingBranchAdd d.branches dept form.branchName = some b →
      addSentPayload d form now = some (addProfPayload form b.id dept)) ∧
    (findExistingBranchAdd d.branches dept form.branchName = none →
      addSentPayload d form now =
        some (addProfPayload form ("branch_" ++ toString now) dept)) ∧
    (findExistingBranchEdit d.branches dept eform.branchName = some b →
      editSentPayload d eform now =
        some (editProfPayload eform b.id dept false) ∧
      ∀ rf, (handleEditProfessor st eform now rf).data.map AppData.branches =
        st.data.map AppData.branches) ∧
    (findExistingBranchEdit d.branches dept eform.branchName = none →
      lookupKey d.branches ("branch_" ++ toString now) = none →
      editSentPayload d eform now =
        some (editProfPayload eform ("branch_" ++ toString now) dept true) ∧
      ∀ rf,
        (handleEditProfessor st eform now rf).data.map AppData.branches =
          some (d.branches ++ [("branch_" ++ toString now,
            { id := "branch_" ++ toString now, name := eform.branchName,
              departmentId := some dept.id })]) ∧
        (handleEditProfessor st eform now rf).data.map AppData.departments =
          some (d.departments.map (fun dd =>
            if dd.id == dept.id
            then { dd with
              branches := dd.branches ++ ["branch_" ++ toString now] }
            else dd))) := by
  refine ⟨?_, ?_, ?_, ?_, ?_⟩
  · intro rf
    simp only [handleAddProfessor, hdata, hdeptA, handleDataUpdate,
      saveLocalData, showToast]
    split
    · exact ⟨rfl, rfl⟩
    · exact ⟨rfl, rfl⟩
  · intro h
    simp only [addSentPayload, hdeptA, h]
  · intro h
    simp only [addSentPayload, hdeptA, h]
  · intro he
    refine ⟨by simp only [editSentPayload, hdeptE, he, Option.isNone_some],
      ?_⟩
    intro rf
    simp only [handleEditProfessor, hdata, hdeptE, he, Option.isNone_some,
      Bool.false_eq_true, if_false, handleDataUpdate, saveLocalData,
      showToast]
    split
    · rfl
    · rfl
  · intro he hfresh
    refine ⟨by simp only [editSentPayload, hdeptE, he, Option.isNone_none],
      ?_⟩
    intro rf
    simp only [handleEditProfessor, hdata, hdeptE, he, Option.isNone_none,
      if_true, addNewBranch, handleDataUpdate, saveLocalData, showToast,
      setKey_of_absent _ hfresh]
    split
    · exact ⟨rfl, rfl⟩
    · exact ⟨rfl, rfl⟩

/-- Witness for C5: the one-department session, with the non-matching add
form `Robotics` and the case-insensitively matching edit form `ai`. -/
theorem C5_branch_resolution_witness :
    (∀ rf,
      (handleAddProfessor stD1 addFormRobotics 99 rf).data.map
          AppData.branches =
        stD1.data.map AppData.branches ∧
      (handleAddProfessor stD1 addFormRobotics 99 rf).data.map
          AppData.departments =
        stD1.data.map AppData.departments) ∧
    (findExistingBranchAdd appD1.branches deptD1 addFormRobotics.branchName =
        some branchB1 →
      addSentPayload appD1 addFormRobotics 99 =
        some (addProfPayload addFormRobotics branchB1.id deptD1)) ∧
    (findExistingBranchAdd appD1.branches deptD1 addFormRobotics.branchName =
        none →
      addSentPayload appD1 addFormRobotics 99 =
        some (addProfPayload addFormRobotics ("branch_" ++ toString 99)
          deptD1)) ∧
    (findExistingBranchEdit appD1.branches deptD1 editFormAi.branchName =
        some branchB1 →
      editSentPayload appD1 editFormAi 99 =
        some (editProfPayload editFormAi branchB1.id deptD1 false) ∧
      ∀ rf, (handleEditProfessor stD1 editFormAi 99 rf).data.map
          AppData.branches =
        stD1.data.map AppData.branches) ∧
    (findExistingBranchEdit appD1.branches deptD1 editFormAi.branchName =
        none →
      lookupKey appD1.branches ("branch_" ++ toString 99) = none →
      editSentPayload appD1 editFormAi 99 =
        some (editProfPayload editFormAi ("branch_" ++ toString 99) deptD1
          true) ∧
      ∀ rf,
        (handleEditProfessor stD1 editFormAi 99 rf).data.map
            AppData.branches =
          some (appD1.branches ++ [("branch_" ++ toString 99,
            { id := "branch_" ++ toString 99, name := editFormAi.branchName,
              departmentId := some deptD1.id })]) ∧
        (handleEditProfessor stD1 editFormAi 99 rf).data.map
            AppData.departments =
          some (appD1.departments.map (fun dd =>
            if dd.id == deptD1.id
            then { dd with
              branches := dd.branches ++ ["branch_" ++ toString 99] }
            else dd))) :=
  C5_branch_resolution stD1 appD1 deptD1 branchB1 addFormRobotics editFormAi
    99 rfl (by decide) (by decide)

/-- **C6 (amended)** The mutations that go through `handleDataUpdate` —
successful add, successful edit, the edit offline fallback, and successful
remove-professor — persist the full updated aggregate to the Local Cache
under the single fixed key.  Successful remove-department does not: it
refetches and hands the fresh aggregate to `setData` directly, leaving the
cache untouched (see the counterexample); the load-time reconciliation in
`loadData` likewise calls no `saveLocalData` (its embedding has no cache
effect at all). -/
theorem C6_persistence_through_handleDataUpdate (st : UIState) (d : AppData)
    (dept : Department) (form : AddForm) (eform : EditForm)
    (profId deptId : String) (now : Nat) (fresh : AppData) (sp : Professor)
    (hdata : st.data = some d)
    (hdeptA : d.departments.find? (fun dd => dd.id == form.departmentId) =
      some dept)
    (hdeptE : d.departments.find? (fun dd => dd.id == eform.departmentId) =
      some dept) :
    (∃ nd, (handleAddProfessor st form now
        (fun _ => RemoteResult.ok sp)).data = some nd ∧
      (handleAddProfessor st form now
        (fun _ => RemoteResult.ok sp)).cacheWrites =
        st.cacheWrites ++ [(LOCAL_STORAGE_KEY, nd)]) ∧
    (∃ nd, (handleEditProfessor st eform now
        (fun _ => RemoteResult.ok sp)).data = some nd ∧
      (handleEditProfessor st eform now
        (fun _ => RemoteResult.ok sp)).cacheWrites =
        st.cacheWrites ++ [(LOCAL_STORAGE_KEY, nd)]) ∧
    (∃ nd, (handleEditProfessor st eform now
        (fun _ => RemoteResult.err)).data = some nd ∧
      (handleEditProfessor st eform now
        (fun _ => RemoteResult.err)).cacheWrites =
        st.cacheWrites ++ [(LOCAL_STORAGE_KEY, nd), (LOCAL_STORAGE_KEY, nd)]) ∧
    (∃ nd, (handleRemoveProfessor st profId true
        (RemoteResult.ok ())).data = some nd ∧
      (handleRemoveProfessor st profId true
        (RemoteResult.ok ())).cacheWrites =
        st.cacheWrites ++ [(LOCAL_STORAGE_KEY, nd)]) ∧
    handleRemoveDepartment st deptId true (RemoteResult.ok ())
        (RemoteResult.ok fresh) =
      { st with data := some fresh,
                toasts := st.toasts ++ ["Department removed."] } := by
  refine ⟨?_, ?_, ?_, ?_, rfl⟩
  · simp only [handleAddProfessor, hdata, hdeptA, handleDataUpdate,
      saveLocalData, showToast]
    exact ⟨_, rfl, rfl⟩
  · simp only [handleEditProfessor, hdata, hdeptE, handleDataUpdate,
      saveLocalData, showToast]
    exact ⟨_, rfl, rfl⟩
  · simp only [handleEditProfessor, hdata, hdeptE, handleDataUpdate,
      saveLocalData, showToast]
    exact ⟨_, rfl, by simp⟩
  · simp only [handleRemoveProfessor, hdata, handleDataUpdate,
      saveLocalData, showToast]
    exact ⟨_, rfl, rfl⟩

/-- Witness for C6: the five operations on the one-department session. -/
theorem C6_persistence_through_handleDataUpdate_witness :
    (∃ nd, (handleAddProfessor stD1 addFormRobotics 99
        (fun _ => RemoteResult.ok srvProf)).data = some nd ∧
      (handleAddProfessor stD1 addFormRobotics 99
        (fun _ => RemoteResult.ok srvProf)).cacheWrites =
        stD1.cacheWrites ++ [(LOCAL_STORAGE_KEY, nd)]) ∧
    (∃ nd, (handleEditProfessor stD1 editFormAi 99
        (fun _ => RemoteResult.ok srvProf)).data = some nd ∧
      (handleEditProfessor stD1 editFormAi 99
        (fun _ => RemoteResult.ok srvProf)).cacheWrites =
        stD1.cacheWrites ++ [(LOCAL_STORAGE_KEY, nd)]) ∧
    (∃ nd, (handleEditProfessor stD1 editFormAi 99
        (fun _ => RemoteResult.err)).data = some nd ∧
      (handleEditProfessor stD1 editFormAi 99
        (fun _ => RemoteResult.err)).cacheWrites =
        stD1.cacheWrites ++
          [(LOCAL_STORAGE_KEY, nd), (LOCAL_STORAGE_KEY, nd)]) ∧
    (∃ nd, (handleRemoveProfessor stD1 "p1" true
        (RemoteResult.ok ())).data = some nd ∧
      (handleRemoveProfessor stD1 "p1" true
        (RemoteResult.ok ())).cacheWrites =
        stD1.cacheWrites ++ [(LOCAL_STORAGE_KEY, nd)]) ∧
    handleRemoveDepartment stD1 "d1" true (RemoteResult.ok ())
        (RemoteResult.ok emptyAppData) =
      { stD1 with data := some emptyAppData,
                  toasts := stD1.toasts ++ ["Department removed."] } :=
  C6_persistence_through_handleDataUpdate stD1 appD1 deptD1 addFormRobotics
    editFormAi "p1" "d1" 99 emptyAppData srvProf rfl (by decide) (by decide)

/-- Counterexample for C6 as stated: a successful Remove Department mutates
the in-memory aggregate (the fresh refetched aggregate replaces it) but
performs no Local Cache write at all. -/
theorem C6_counterexample_remove_department_not_persisted :
    (handleRemoveDepartment stD1 "d1" true (RemoteResult.ok ())
        (RemoteResult.ok emptyAppData)).data = some emptyAppData ∧
    (handleRemoveDepartment stD1 "d1" true (RemoteResult.ok ())
        (RemoteResult.ok emptyAppData)).data ≠ stD1.data ∧
    (handleRemoveDepartment stD1 "d1" true (RemoteResult.ok ())
        (RemoteResult.ok emptyAppData)).cacheWrites = [] :=
  ⟨rfl, by decide, rfl⟩

theorem requestAux_spec (script : Nat → FetchOutcome) (fuel : Nat) :
    ∀ (attempt : Nat) (delays : List Nat),
    attempt + fuel = MAX_RETRIES + 1 → attempt ≤ MAX_RETRIES →
    delays = (List.range attempt).map (fun a => RETRY_DELAY_MS * (a + 1)) →
    (requestAux script attempt fuel delays).attempts ≤ MAX_RETRIES + 1 ∧
    attempt + 1 ≤ (requestAux script attempt fuel delays).attempts ∧
    (∀ i, attempt ≤ i →
      i + 1 < (requestAux script attempt fuel delays).attempts →
      script i = FetchOutcome.netFail) ∧
    (requestAux script attempt fuel delays).delays =
      (List.range ((requestAux script attempt fuel delays).attempts - 1)).map
        (fun a => RETRY_DELAY_MS * (a + 1)) ∧
    (∀ status body,
      script ((requestAux script attempt fuel delays).attempts - 1) =
        FetchOutcome.respErr status body →
      (requestAux script attempt fuel delays).outcome =
        ReqOutcome.httpError (httpThrowMsg status body) status) := by
  induction fuel with
  | zero => intro attempt delays h1 h2 _; omega
  | succ fuel ih =>
      intro attempt delays hfuel hle hdel
      simp only [requestAux]
      cases hscript : script attempt with
      | netFail =>
          dsimp only
          by_cases hlt : attempt < MAX_RETRIES
          · simp only [if_pos hlt]
            have hdel' : delays ++ [RETRY_DELAY_MS * (attempt + 1)] =
                (List.range (attempt + 1)).map
                  (fun a => RETRY_DELAY_MS * (a + 1)) := by
              rw [List.range_succ, List.map_append, ← hdel]
              rfl
            obtain ⟨a1, a2, a3, a4, a5⟩ :=
              ih (attempt + 1) (delays ++ [RETRY_DELAY_MS * (attempt + 1)])
                (by omega) (by omega) hdel'
            refine ⟨a1, by omega, ?_, a4, a5⟩
            intro i hi hi2
            rcases Nat.eq_or_lt_of_le hi with he | hlt'
            · exact he ▸ hscript
            · exact a3 i (by omega) hi2
          · simp only [if_neg hlt]
            refine ⟨by omega, by omega, ?_, ?_, ?_⟩
            · intro i hi hi2
              omega
            · simpa using hdel
            · intro status body hsb
              rw [show attempt + 1 - 1 = attempt from by omega, hscript]
                at hsb
              cases hsb
      | otherFail =>
          dsimp only
          refine ⟨by omega, by omega, ?_, ?_, ?_⟩
          · intro i hi hi2
            omega
          · simpa using hdel
          · intro status body hsb
            rw [show attempt + 1 - 1 = attempt from by omega, hscript] at hsb
            cases hsb
      | respErr status body =>
          dsimp only
          refine ⟨by omega, by omega, ?_, ?_, ?_⟩
          · intro i hi hi2
            omega
          · simpa using hdel
          · intro status' body' hsb
            rw [show attempt + 1 - 1 = attempt from by omega, hscript] at hsb
            cases hsb
            rfl
      | respOk jsonOk =>
          cases jsonOk
          all_goals
            dsimp only
            refine ⟨by omega, by omega, ?_, ?_, ?_⟩
          · intro i hi hi2
            omega
          · simpa using hdel
          · intro status body hsb
            rw [show attempt + 1 - 1 = attempt from by omega, hscript] at hsb
            cases hsb
          · intro i hi hi2
            omega
          · simpa using hdel
          · intro status body hsb
            rw [show attempt + 1 - 1 = attempt from by omega, hscript] at hsb
            cases hsb

/-- **C8 (amended)** The HTTP client's `request` retries only transient
network errors (`fetch` rejections): every attempt before the last saw a
network failure, there are at most `MAX_RETRIES = 2` extra attempts, and the
waits grow linearly (`500·(attempt+1)` ms).  A non-2xx response is never
retried and is raised as an error whose message is the `error` field of the
body when it parses as JSON with a non-empty string `error`, the raw response
text when it does not parse (or carries no usable `error` field), and
`HTTP <status>` when that text is empty. -/
theorem C8_request_retry_policy (script : Nat → FetchOutcome) :
    (request script).attempts ≤ MAX_RETRIES + 1 ∧
    1 ≤ (request script).attempts ∧
    (∀ i, i + 1 < (request script).attempts →
      script i = FetchOutcome.netFail) ∧
    (request script).delays =
      (List.range ((request script).attempts - 1)).map
        (fun a => RETRY_DELAY_MS * (a + 1)) ∧
    (∀ status body,
      script ((request script).attempts - 1) =
        FetchOutcome.respErr status body →
      (request script).outcome =
        ReqOutcome.httpError (httpThrowMsg status body) status) ∧
    (∀ status e t, e ≠ "" →
      httpThrowMsg status (ErrBody.jsonWithError e t) = e) ∧
    (∀ status t, t ≠ "" → httpThrowMsg status (ErrBody.notJson t) = t) ∧
    (∀ status,
      httpThrowMsg status (ErrBody.notJson "") = "HTTP " ++ toString status)
    := by
  obtain ⟨a1, a2, a3, a4, a5⟩ :=
    requestAux_spec script (MAX_RETRIES + 1) 0 [] rfl (by omega) rfl
  refine ⟨a1, a2, fun i h => a3 i (Nat.zero_le i) h, a4, a5, ?_, ?_, ?_⟩
  · intro status e t he
    simp only [httpThrowMsg, ErrBody.message, String.isEmpty_iff, he,
      if_false]
  · intro status t ht
    simp only [httpThrowMsg, ErrBody.message, String.isEmpty_iff, ht,
      if_false]
  · intro status
    rfl

/-- A constant fetch script: every attempt yields a 404 whose body is the
non-JSON text `nope`. -/
def scriptNope : Nat → FetchOutcome :=
  fun _ => FetchOutcome.respErr 404 (ErrBody.notJson "nope")

/-- Witness for C8: running `request` over `scriptNope`. -/
theorem C8_request_retry_policy_witness :
    (request scriptNope).outcome = ReqOutcome.httpError "nope" 404 ∧
    (request scriptNope).attempts = 1 := by
  have h := C8_request_retry_policy scriptNope
  have h5 := h.2.2.2.2.1 404 (ErrBody.notJson "nope") rfl
  have hmsg := h.2.2.2.2.2.2.1 404 "nope" (by decide)
  exact ⟨h5.trans (by rw [hmsg]), rfl⟩

/-- Counterexample for C8 as stated: a non-2xx response with an empty body is
raised with the message `HTTP 404`, not with the raw (empty) response
text. -/
theorem C8_counterexample_empty_error_body :
    request (fun _ => FetchOutcome.respErr 404 (ErrBody.notJson "")) =
      { outcome := ReqOutcome.httpError "HTTP 404" 404, attempts := 1,
        delays := [] } ∧
    ("HTTP 404" : String) ≠ "" :=
  ⟨rfl, by decide⟩

/-- The simultaneous single-pass reading of the five entity replacements:
what each character of the stringified input becomes in the output. -/
def entityOf (c : Char) : List Char :=
  if c = '&' then "&amp;".data
  else if c = '<' then "&lt;".data
  else if c = '>' then "&gt;".data
  else if c = quotChar then "&quot;".data
  else if c = aposChar then aposEntity
  else [c]

/-- `entityOf` applied across a character list. -/
def expandAll : List Char → List Char
  | [] => []
  | c :: cs => entityOf c ++ expandAll cs

theorem replaceAllChar_append (t : Char) (r : List Char)
    (xs ys : List Char) :
    replaceAllChar t r (xs ++ ys) =
      replaceAllChar t r xs ++ replaceAllChar t r ys := by
  induction xs with
  | nil => rfl
  | cons c cs ih => simp [replaceAllChar, ih]

theorem composed_char (c : Char) :
    replaceAllChar aposChar aposEntity
      (replaceAllChar quotChar "&quot;".data
        (replaceAllChar '>' "&gt;".data
          (replaceAllChar '<' "&lt;".data
            (if c = '&' then "&amp;".data else [c])))) = entityOf c := by
  by_cases h1 : c = '&'
  · subst h1; decide
  · rw [if_neg h1]
    by_cases h2 : c = '<'
    · subst h2; decide
    · by_cases h3 : c = '>'
      · subst h3; decide
      · by_cases h4 : c = quotChar
        · subst h4; decide
        · by_cases h5 : c = aposChar
          · subst h5; decide
          · simp [replaceAllChar, entityOf, h1, h2, h3, h4, h5]

theorem composed_eq_expandAll (l : List Char) :
    replaceAllChar aposChar aposEntity
      (replaceAllChar quotChar "&quot;".data
        (replaceAllChar '>' "&gt;".data
          (replaceAllChar '<' "&lt;".data
            (replaceAllChar '&' "&amp;".data l)))) = expandAll l := by
  induction l with
  | nil => rfl
  | cons c cs ih =>
      have h1 : replaceAllChar '&' "&amp;".data (c :: cs) =
          (if c = '&' then "&amp;".data else [c]) ++
            replaceAllChar '&' "&amp;".data cs := rfl
      rw [h1, replaceAllChar_append, replaceAllChar_append,
        replaceAllChar_append, replaceAllChar_append]
      rw [composed_char, ih]
      rfl

theorem entityOf_no_forbidden (c : Char) :
    ∀ c' ∈ entityOf c,
      c' ≠ '<' ∧ c' ≠ '>' ∧ c' ≠ quotChar ∧ c' ≠ aposChar := by
  by_cases h1 : c = '&'
  · subst h1; decide
  · by_cases h2 : c = '<'
    · subst h2; decide
    · by_cases h3 : c = '>'
      · subst h3; decide
      · by_cases h4 : c = quotChar
        · subst h4; decide
        · by_cases h5 : c = aposChar
          · subst h5; decide
          · intro c' hc'
            simp only [entityOf, h1, h2, h3, h4, h5, if_false,
              List.mem_singleton] at hc'
            subst hc'
            exact ⟨h2, h3, h4, h5⟩

theorem expandAll_no_forbidden (l : List Char) :
    ∀ c' ∈ expandAll l,
      c' ≠ '<' ∧ c' ≠ '>' ∧ c' ≠ quotChar ∧ c' ≠ aposChar := by
  induction l with
  | nil => intro c' hc'; simp [expandAll] at hc'
  | cons c cs ih =>
      intro c' hc'
      rcases List.mem_append.mp hc' with h | h
      · exact entityOf_no_forbidden c c' h
      · exact ih c' h

theorem escapeHtml_expand (v : JSVal)
    (h : (v.truthy || v.strictEqZero) = true) :
    escapeHtml v = String.mk (expandAll (jsString v).data) := by
  unfold escapeHtml
  have hcond : (!v.truthy && !v.strictEqZero) = false := by
    cases hv : v.truthy
    · cases hz : v.strictEqZero
      · rw [hv, hz] at h; cases h
      · rfl
    · rfl
  rw [hcond]
  simp only [Bool.false_eq_true, if_false]
  exact congrArg String.mk (composed_eq_expandAll _)

/-- **C9** `escapeHtml` never emits `<`, `>`, double-quote or single-quote;
on every truthy input (and on the number `0`) it is exactly the character-wise
entity expansion of the stringified input (each of the five metacharacters
replaced by its entity, everything else kept); every falsy input other than
the number `0` (null, undefined, empty string, false, NaN) yields the empty
string, while the number `0` yields `"0"`. -/
theorem C9_escapeHtml_correct :
    (∀ v c, c ∈ (escapeHtml v).data →
      c ≠ '<' ∧ c ≠ '>' ∧ c ≠ quotChar ∧ c ≠ aposChar) ∧
    (∀ v, (v.truthy || v.strictEqZero) = true →
      escapeHtml v = String.mk (expandAll (jsString v).data)) ∧
    (∀ v, v.truthy = false → v ≠ JSVal.vnum 0 → escapeHtml v = "") ∧
    escapeHtml (JSVal.vnum 0) = "0" := by
  have hempty : ∀ v, (!v.truthy && !v.strictEqZero) = true →
      escapeHtml v = "" := by
    intro v hcond
    unfold escapeHtml
    rw [hcond]
    rfl
  refine ⟨?_, escapeHtml_expand, ?_, by rfl⟩
  · intro v c hc
    by_cases hcond : (!v.truthy && !v.strictEqZero) = true
    · rw [hempty v hcond] at hc
      rw [show ("" : String).data = [] from rfl] at hc
      cases hc
    · have h' : (v.truthy || v.strictEqZero) = true := by
        cases hv : v.truthy
        · cases hz : v.strictEqZero
          · rw [hv, hz] at hcond; cases hcond rfl
          · rfl
        · rfl
      rw [escapeHtml_expand v h'] at hc
      exact expandAll_no_forbidden _ c hc
  · intro v hft hne
    have hz : v.strictEqZero = false := by
      cases v with
      | vnum n =>
          have hn : n = 0 := by simpa [JSVal.truthy] using hft
          exact absurd (by rw [hn]) hne
      | vstr s => rfl
      | vnan => rfl
      | vbool b => rfl
      | vnull => rfl
      | vundef => rfl
    exact hempty v (by rw [hft, hz]; rfl)

/-- Witness for C9: a string with a metacharacter, the falsy `false`, and the
number `0`. -/
theorem C9_escapeHtml_correct_witness :
    escapeHtml (JSVal.vstr "a<b") = String.mk (expandAll "a<b".data) ∧
    escapeHtml (JSVal.vbool false) = "" ∧
    escapeHtml (JSVal.vnum 0) = "0" := by
  have h := C9_escapeHtml_correct
  exact ⟨h.2.1 _ (by decide), h.2.2.1 _ (by decide) (by decide), h.2.2.2⟩

/-- **C10** `normalizeUrl` is the identity on every string the `URL`
constructor rejects; on every parseable URL it renders the same URL with the
fragment cleared and every tracking parameter (`utm_source`, `utm_medium`,
`utm_campaign`, `utm_term`, `utm_content`, `fbclid`, `gclid`) deleted, the
scheme, host, path and all other query parameters unchanged.  The browser's
`URL` parse/serialize pair is abstracted as the `parse`/`render`
arguments. -/
theorem C10_normalizeUrl (parse : String → Option URLRec)
    (render : URLRec → String) (raw : String) :
    (parse raw = none → normalizeUrl parse render raw = raw) ∧
    (∀ u, parse raw = some u →
      normalizeUrl parse render raw =
        render { protocol := u.protocol, host := u.host,
                 pathname := u.pathname,
                 searchParams := u.searchParams.filter
                   (fun kv => !TRACKING_PARAMS.contains kv.1),
                 hash := "" }) := by
  constructor
  · intro h
    simp [normalizeUrl, h]
  · intro u hu
    simp [normalizeUrl, hu, dropTrackingParams]

/-- A concrete parsed URL carrying one tracking parameter, one ordinary
parameter and a fragment. -/
def urlEx : URLRec :=
  { protocol := "https:",
    host := "example.com",
    pathname := "/x",
    searchParams := [("utm_source", "a"), ("q", "1")],
    hash := "#f" }

/-- A parse function that always yields `urlEx`. -/
def parseConstUrl : String → Option URLRec := fun _ => some urlEx

/-- A parse function that always rejects. -/
def parseNoUrl : String → Option URLRec := fun _ => none

/-- A render function exposing the whole record for inspection. -/
def renderParamsUrl : URLRec → String :=
  fun u => String.intercalate "&"
    (u.searchParams.map (fun kv => kv.1 ++ "=" ++ kv.2)) ++ u.hash

/-- Witness for C10: the parseable and unparseable cases at concrete
inputs. -/
theorem C10_normalizeUrl_witness :
    (normalizeUrl parseNoUrl renderParamsUrl "not a url" = "not a url") ∧
    normalizeUrl parseConstUrl renderParamsUrl "u" =
      renderParamsUrl { protocol := urlEx.protocol, host := urlEx.host,
                        pathname := urlEx.pathname,
                        searchParams := urlEx.searchParams.filter
                          (fun kv => !TRACKING_PARAMS.contains kv.1),
                        hash := "" } :=
  ⟨(C10_normalizeUrl parseNoUrl renderParamsUrl "not a url").1 rfl,
   (C10_normalizeUrl parseConstUrl renderParamsUrl "u").2 urlEx rfl⟩
